import Mathlib

/-!
Shallow embedding of the aggregation / dedup / score / diversify pipeline of the
AI-RealEstate-Agent repository (src/services/propertyService.ts and the
RealEstateApiClient of the API layer), together with theorems settling the
frozen claims about it.

Conventions of the embedding:
* JS numbers are modelled as exact rationals (ℚ) or integers (Int) — prices are
  integers in every code path (Math.floor), bedroom/bathroom counts are
  rationals.  Rational division is total with x / 0 = 0; the one reachable
  error path where a JS division by zero escapes into the result —
  calculatePriceScore with minPrice = maxPrice, where the source computes
  NaN or -Infinity — is modelled explicitly with JS float semantics (the
  JsNum type) by calculatePriceScoreJs/calculateScoreJs, and a bridge lemma
  proves the two embeddings agree away from that corner.
* Math.round is JS rounding: round half toward positive infinity.
* Math.random() is modelled by an explicit stream of rationals (ℕ → ℚ) and a
  cursor that is threaded through the code in exactly the order the source
  calls Math.random().
* JS Date values are millisecond timestamps (Int); "now" is a parameter.
* Truthiness of optional numbers (undefined/0 are falsy) and optional strings
  (undefined/"" are falsy) is modelled explicitly.
-/

set_option maxHeartbeats 4000000
set_option maxRecDepth 10000

namespace RealEstate

/-- JS Math.round: round half toward +infinity, as an integer. -/
def jsRound (q : ℚ) : Int := ⌊q + 1/2⌋

/-- JS Math.floor as an integer. -/
def jsFloor (q : ℚ) : Int := ⌊q⌋

/-- JS Math.floor of a nonnegative quantity, as a natural index. -/
def jsFloorNat (q : ℚ) : ℕ := (⌊q⌋).toNat

/-- JS ToIntegerOrInfinity (used by the Date constructor): truncation toward 0. -/
def jsTrunc (q : ℚ) : Int := if 0 ≤ q then ⌊q⌋ else -⌊-q⌋

/-- Truthiness of an optional JS number: undefined and 0 are falsy. -/
def truthyNum (o : Option ℚ) : Bool :=
  match o with
  | none => false
  | some v => v != 0

/-- Truthiness of an optional JS integer: undefined and 0 are falsy. -/
def truthyInt (o : Option Int) : Bool :=
  match o with
  | none => false
  | some v => v != 0

/-- Truthiness of an optional JS string: undefined and the empty string are falsy. -/
def truthyStr (o : Option String) : Bool :=
  match o with
  | none => false
  | some s => s != ""

/-- JS `x || d` on an optional number: the left operand if truthy, else the default. -/
def orElseQ (o : Option ℚ) (d : ℚ) : ℚ :=
  match o with
  | some v => if v != 0 then v else d
  | none => d

/-- JS `x || d` on an optional integer. -/
def orElseInt (o : Option Int) (d : Int) : Int :=
  match o with
  | some v => if v != 0 then v else d
  | none => d

/-- JS `x || d` on an optional string. -/
def orElseStr (o : Option String) (d : String) : String :=
  match o with
  | some s => if s != "" then s else d
  | none => d

/-- List-of-chars test: does the first list start with the second? -/
def startsWithChars : List Char → List Char → Bool
  | _, [] => true
  | [], _ :: _ => false
  | a :: as, b :: bs => a == b && startsWithChars as bs

/-- Substring occurrence on char lists (needle occurs somewhere in the haystack). -/
def containsChars (needle : List Char) : List Char → Bool
  | [] => startsWithChars [] needle
  | c :: t => startsWithChars (c :: t) needle || containsChars needle t

/-- JS String.prototype.includes. -/
def jsIncludes (s sub : String) : Bool := containsChars sub.data s.data

/-- JS String.prototype.toLowerCase (simple per-character mapping; identical to
String.toLower, written over the character list so that it reduces in the
kernel). -/
def jsToLower (s : String) : String := String.mk (s.data.map Char.toLower)

/-- Lexicographic comparison of character lists by code unit, as the default
JS Array.prototype.sort comparator compares strings. -/
def charListLt : List Char → List Char → Bool
  | [], [] => false
  | [], _ :: _ => true
  | _ :: _, [] => false
  | a :: as, b :: bs =>
    a.toNat < b.toNat || (a.toNat == b.toNat && charListLt as bs)

/-- The at-most-or-equal form of the default JS string comparison. -/
def jsStrLE (a b : String) : Bool := !(charListLt b.data a.data)

/-- JS String.prototype.slice(-2): the last two UTF-16 units (whole string if shorter). -/
def jsSliceLastTwo (s : String) : String :=
  if s.data.length ≤ 2 then s else String.mk (s.data.drop (s.data.length - 2))

/-- Digit-prefix accumulator for parseInt. -/
def digitsPrefixVal : List Char → Option ℕ → Option ℕ
  | [], acc => acc
  | c :: t, acc =>
    if c.isDigit then
      digitsPrefixVal t (some ((acc.getD 0) * 10 + (c.toNat - 48)))
    else acc

/-- JS parseInt(s, 10): skip leading whitespace, optional sign, then a digit
prefix; NaN (modelled as none) when no digit is found. -/
def jsParseInt (s : String) : Option Int :=
  let t := s.data.dropWhile Char.isWhitespace
  match t with
  | '-' :: rest => (digitsPrefixVal rest none).map (fun n => -(n : Int))
  | '+' :: rest => (digitsPrefixVal rest none).map (fun n => (n : Int))
  | rest => (digitsPrefixVal rest none).map (fun n => (n : Int))

/-- First-occurrence deduplication of strings, as done by `[...new Set(xs)]`. -/
def jsSetDedup (xs : List String) : List String :=
  go xs []
where
  go : List String → List String → List String
  | [], _ => []
  | x :: t, seen => if x ∈ seen then go t seen else x :: go t (x :: seen)

/-- Replace every run of whitespace by a single hyphen (the /\s+/g → "-" regex). -/
def collapseWs : List Char → List Char
  | [] => []
  | c :: t =>
    if c.isWhitespace then '-' :: collapseWs (t.dropWhile Char.isWhitespace)
    else c :: collapseWs t
termination_by l => l.length
decreasing_by
  · exact Nat.lt_succ_of_le ((List.dropWhile_suffix _).sublist.length_le)
  · simp

/-- String form of the whitespace-run replacement. -/
def jsReplaceWs (s : String) : String := String.mk (collapseWs s.data)

/-- Grouped decimal rendering of a natural number (toLocaleString for en-US). -/
def commaGroupNat (n : ℕ) : String :=
  let ds := (toString n).data
  String.mk (go ds.reverse).reverse
where
  go : List Char → List Char
  | [] => []
  | l =>
    if l.length ≤ 3 then l
    else l.take 3 ++ ',' :: go (l.drop 3)
  termination_by l => l.length
  decreasing_by
    simp_all
    omega

/-- JS Number.prototype.toLocaleString for integers. -/
def jsToLocaleString (n : Int) : String :=
  if n < 0 then "-" ++ commaGroupNat (-n).toNat else commaGroupNat n.toNat

/-- One base-36 digit character. -/
def base36Digit (n : ℕ) : Char :=
  if n < 10 then Char.ofNat (48 + n) else Char.ofNat (87 + n)

/-- Up to `k` base-36 fraction digits of a rational in [0,1). -/
def base36Frac : ℕ → ℚ → List Char
  | 0, _ => []
  | k + 1, q =>
    let q36 := q * 36
    let d := jsFloorNat q36
    base36Digit d :: base36Frac k (q36 - (d : ℚ))

/-- Math.random().toString(36).substring(2, 15): the first 13 base-36 fraction
digits with trailing zeros stripped (JS doubles always terminate; for rationals
whose expansion does not terminate within 13 digits this may differ from a
concrete JS float, but no claim inspects the generated id strings). -/
def randBase36Id (q : ℚ) : String :=
  String.mk (((base36Frac 13 q).reverse.dropWhile (· == '0')).reverse)

/-! ## Data model (src/types/property.ts) -/

/-- The ListingType enum. -/
inductive ListingType where
  | rent
  | buy
  | any
deriving DecidableEq, Repr

/-- The string value of a ListingType enum member. -/
def ListingType.str : ListingType → String
  | .rent => "rent"
  | .buy => "buy"
  | .any => "any"

/-- The PropertyType enum. -/
inductive PropertyType where
  | house
  | apartment
  | condo
  | townhouse
  | any
deriving DecidableEq, Repr

/-- The string value of a PropertyType enum member. -/
def PropertyType.str : PropertyType → String
  | .house => "house"
  | .apartment => "apartment"
  | .condo => "condo"
  | .townhouse => "townhouse"
  | .any => "any"

/-- The SearchCriteria interface.  Optional JS fields are Options; prices are
integers (every code path floors them) and bed/bath counts rationals. -/
structure SearchCriteria where
  city : String
  state : Option String
  listingType : ListingType
  minPrice : Option Int
  maxPrice : Option Int
  propertyType : PropertyType
  bedrooms : Option ℚ
  bathrooms : Option ℚ
  features : List String
deriving DecidableEq, Repr

/-- The Property interface.  dateAdded is a millisecond timestamp. -/
structure Property where
  id : String
  address : String
  city : String
  state : String
  zipCode : String
  listingType : ListingType
  price : Int
  bedrooms : ℚ
  bathrooms : ℚ
  squareFootage : Option ℚ
  propertyType : PropertyType
  description : Option String
  features : List String
  imageUrls : List String
  listingUrl : String
  source : String
  dateAdded : Int
  score : Option Int
deriving DecidableEq, Repr

/-- The comparable-market block built by generateMarketInsights (the non-empty
case; the empty object {} is modelled as Option.none at the use site). -/
structure MarketInsights where
  averagePrice : Int
  medianPrice : Int
  pricePercentile : Int
  totalComparables : ℕ
  pricePosition : String
deriving DecidableEq, Repr

/-- A property as returned by addSmartRecommendations: the original record
plus the two attached metadata fields. -/
structure AnnotatedProperty where
  property : Property
  recommendations : List String
  marketInsights : Option MarketInsights
deriving DecidableEq, Repr

/-! ## PropertyService (src/services/propertyService.ts) -/

/-- Identity key used by deduplicateProperties:
address.toLowerCase() concatenated with "-" and the price. -/
def dedupKey (p : Property) : String :=
  jsToLower p.address ++ "-" ++ toString p.price

/-- lodash uniqBy: keep the first record for each key, in input order. -/
def uniqByKey : List Property → List String → List Property
  | [], _ => []
  | p :: t, seen =>
    if dedupKey p ∈ seen then uniqByKey t seen
    else p :: uniqByKey t (dedupKey p :: seen)

/-- PropertyService.deduplicateProperties. -/
def deduplicateProperties (properties : List Property) : List Property :=
  uniqByKey properties []

/-- PropertyService.calculatePriceScore over total rational division (used by
the ranking pipeline, which treats the score opaquely).  When
minPrice = maxPrice (both truthy) the source divides by zero, producing NaN or
-Infinity in JS; that float behavior is modelled faithfully by
calculatePriceScoreJs below, and calculatePriceScoreJs_eq_fin proves the two
agree whenever the bounds are not a degenerate equal pair. -/
def calculatePriceScore (property : Property) (criteria : SearchCriteria) : ℚ :=
  if truthyInt criteria.minPrice && truthyInt criteria.maxPrice then
    let minP : ℚ := (criteria.minPrice.getD 0 : Int)
    let maxP : ℚ := (criteria.maxPrice.getD 0 : Int)
    let midPrice := (minP + maxP) / 2
    let priceDistance := |(property.price : ℚ) - midPrice|
    let maxDistance := max (midPrice - minP) (maxP - midPrice)
    (1 - priceDistance / maxDistance) * 25
  else if truthyInt criteria.maxPrice then
    let maxP : ℚ := (criteria.maxPrice.getD 0 : Int)
    let utilization := (property.price : ℚ) / maxP
    if utilization ≤ 8/10 then 15
    else if utilization ≤ 95/100 then 10
    else 5
  else 0

/-- The premium feature list of calculateFeatureScore. -/
def premiumFeatures : List String :=
  ["pool", "gym", "concierge", "doorman", "rooftop", "garage"]

/-- PropertyService.calculateFeatureScore. -/
def calculateFeatureScore (property : Property) (criteria : SearchCriteria) : ℚ :=
  let matchingFeatures := property.features.filter fun feature =>
    criteria.features.any fun requested =>
      jsIncludes (jsToLower feature) (jsToLower requested) ||
      jsIncludes (jsToLower requested) (jsToLower feature)
  let baseFeatureScore :=
    ((matchingFeatures.length : ℚ) / ((max criteria.features.length 1 : ℕ) : ℚ)) * 15
  let premiumMatches := (property.features.filter fun feature =>
    premiumFeatures.any fun premium => jsIncludes (jsToLower feature) premium).length
  baseFeatureScore + (premiumMatches : ℚ) * 2

/-- PropertyService.calculateSizeScore. -/
def calculateSizeScore (property : Property) (criteria : SearchCriteria) : ℚ :=
  let bedroomScore : ℚ :=
    if truthyNum criteria.bedrooms then
      let cb := criteria.bedrooms.getD 0
      if property.bedrooms = cb then 8
      else if property.bedrooms = cb + 1 then 6
      else if property.bedrooms > cb then 3
      else 0
    else 0
  let bathroomScore : ℚ :=
    if truthyNum criteria.bathrooms then
      let cb := criteria.bathrooms.getD 0
      if property.bathrooms ≥ cb then min ((property.bathrooms - cb + 1) * 3) 8
      else 0
    else 0
  bedroomScore + bathroomScore

/-- PropertyService.calculateLocationScore (the criteria parameter is unused in
the source as well). -/
def calculateLocationScore (property : Property) (_criteria : SearchCriteria) : ℚ :=
  if property.zipCode != "" then
    match jsParseInt (jsSliceLastTwo property.zipCode) with
    | some lastTwo => if lastTwo < 20 then 5 + 3 else 5
    | none => 5
  else 5

/-- PropertyService.calculateFreshnessScore; Date.now() is the parameter now. -/
def calculateFreshnessScore (property : Property) (now : Int) : ℚ :=
  let daysSinceAdded : ℚ := ((now : ℚ) - (property.dateAdded : ℚ)) / (1000 * 60 * 60 * 24)
  if daysSinceAdded < 1 then 12
  else if daysSinceAdded < 3 then 10
  else if daysSinceAdded < 7 then 8
  else if daysSinceAdded < 14 then 6
  else if daysSinceAdded < 30 then 4
  else if daysSinceAdded < 60 then 2
  else 0

/-- PropertyService.calculateValueScore.  When price-per-sqft is exactly 0
(price 0 with nonzero square footage) the source computes a +Infinity value
ratio, which satisfies the first threshold and returns 8; that case is spelled
out so the total rational division (which would give ratio 0) is never relied
on. -/
def calculateValueScore (property : Property) : ℚ :=
  match property.squareFootage with
  | none => 0
  | some sqft =>
    if sqft = 0 then 0
    else
      let pricePerSqFt := (property.price : ℚ) / sqft
      let isRental := property.listingType = ListingType.rent
      let avgPricePerSqFt : ℚ := if isRental then 2 else 150
      if pricePerSqFt = 0 then 8
      else
        let vRat := avgPricePerSqFt / pricePerSqFt
        if vRat > 12/10 then 8
        else if vRat > 11/10 then 6
        else if vRat > 1 then 4
        else if vRat > 9/10 then 2
        else 0

/-- PropertyService.calculateScore: additive sub-scores, then
Math.round(Math.min(score, 100)). -/
def calculateScore (property : Property) (criteria : SearchCriteria) (now : Int) : Int :=
  let score : ℚ := 50
    + calculatePriceScore property criteria
    + calculateFeatureScore property criteria
    + calculateSizeScore property criteria
    + calculateLocationScore property criteria
    + calculateFreshnessScore property now
    + calculateValueScore property
  jsRound (min score 100)

/-- A JS number as the score path needs it: a finite rational, NaN, or a
signed infinity. -/
inductive JsNum where
  | fin (q : ℚ)
  | nan
  | posInf
  | negInf
deriving DecidableEq, Repr

/-- IEEE negation. -/
def JsNum.neg : JsNum → JsNum
  | .fin q => .fin (-q)
  | .nan => .nan
  | .posInf => .negInf
  | .negInf => .posInf

/-- IEEE addition (NaN dominant, opposite infinities give NaN). -/
def JsNum.add : JsNum → JsNum → JsNum
  | .nan, _ => .nan
  | _, .nan => .nan
  | .posInf, .negInf => .nan
  | .negInf, .posInf => .nan
  | .posInf, _ => .posInf
  | _, .posInf => .posInf
  | .negInf, _ => .negInf
  | _, .negInf => .negInf
  | .fin a, .fin b => .fin (a + b)

/-- IEEE subtraction. -/
def JsNum.sub (a b : JsNum) : JsNum := a.add b.neg

/-- IEEE multiplication (infinity times zero gives NaN). -/
def JsNum.mul : JsNum → JsNum → JsNum
  | .nan, _ => .nan
  | _, .nan => .nan
  | .posInf, .posInf => .posInf
  | .posInf, .negInf => .negInf
  | .negInf, .posInf => .negInf
  | .negInf, .negInf => .posInf
  | .posInf, .fin b => if b = 0 then .nan else if b > 0 then .posInf else .negInf
  | .fin a, .posInf => if a = 0 then .nan else if a > 0 then .posInf else .negInf
  | .negInf, .fin b => if b = 0 then .nan else if b > 0 then .negInf else .posInf
  | .fin a, .negInf => if a = 0 then .nan else if a > 0 then .negInf else .posInf
  | .fin a, .fin b => .fin (a * b)

/-- IEEE division over +0 denominators (the only zero this code can produce:
0/0 is NaN, x/0 carries the sign of x, finite/infinite is 0). -/
def JsNum.div : JsNum → JsNum → JsNum
  | .nan, _ => .nan
  | _, .nan => .nan
  | .posInf, .posInf => .nan
  | .posInf, .negInf => .nan
  | .negInf, .posInf => .nan
  | .negInf, .negInf => .nan
  | .posInf, .fin b => if b < 0 then .negInf else .posInf
  | .negInf, .fin b => if b < 0 then .posInf else .negInf
  | .fin _, .posInf => .fin 0
  | .fin _, .negInf => .fin 0
  | .fin a, .fin b =>
    if b = 0 then (if a = 0 then .nan else if a > 0 then .posInf else .negInf)
    else .fin (a / b)

/-- JS Math.min lifted to JsNum (NaN dominant). -/
def JsNum.jsMin : JsNum → JsNum → JsNum
  | .nan, _ => .nan
  | _, .nan => .nan
  | .negInf, _ => .negInf
  | _, .negInf => .negInf
  | .posInf, b => b
  | a, .posInf => a
  | .fin a, .fin b => .fin (min a b)

/-- JS Math.round lifted to JsNum (NaN and infinities pass through). -/
def JsNum.round : JsNum → JsNum
  | .fin q => .fin ((⌊q + 1/2⌋ : Int) : ℚ)
  | .nan => .nan
  | .posInf => .posInf
  | .negInf => .negInf

/-- PropertyService.calculatePriceScore with the JS float error path explicit:
when minPrice = maxPrice (both truthy), maxDistance is 0 and
priceDistance / maxDistance is NaN (price at the midpoint) or +Infinity, so
the branch yields NaN or -Infinity. -/
def calculatePriceScoreJs (property : Property) (criteria : SearchCriteria) : JsNum :=
  if truthyInt criteria.minPrice && truthyInt criteria.maxPrice then
    let minP : ℚ := (criteria.minPrice.getD 0 : Int)
    let maxP : ℚ := (criteria.maxPrice.getD 0 : Int)
    let midPrice := (minP + maxP) / 2
    let priceDistance := |(property.price : ℚ) - midPrice|
    let maxDistance := max (midPrice - minP) (maxP - midPrice)
    ((JsNum.fin 1).sub ((JsNum.fin priceDistance).div (JsNum.fin maxDistance))).mul
      (JsNum.fin 25)
  else if truthyInt criteria.maxPrice then
    let maxP : ℚ := (criteria.maxPrice.getD 0 : Int)
    let utilization := (property.price : ℚ) / maxP
    if utilization ≤ 8/10 then .fin 15
    else if utilization ≤ 95/100 then .fin 10
    else .fin 5
  else .fin 0

/-- PropertyService.calculateScore with the JS float error path explicit: the
additive accumulation, Math.min(score, 100) and Math.round over JsNum.  All
sub-scores but the price score are finite. -/
def calculateScoreJs (property : Property) (criteria : SearchCriteria)
    (now : Int) : JsNum :=
  let score : JsNum :=
    ((((((JsNum.fin 50).add (calculatePriceScoreJs property criteria)).add
      (.fin (calculateFeatureScore property criteria))).add
      (.fin (calculateSizeScore property criteria))).add
      (.fin (calculateLocationScore property criteria))).add
      (.fin (calculateFreshnessScore property now))).add
      (.fin (calculateValueScore property))
  (score.jsMin (.fin 100)).round

/-- The spread {...property, score} of rankProperties. -/
def applyScore (criteria : SearchCriteria) (now : Int) (p : Property) : Property :=
  { p with score := some (calculateScore p criteria now) }

/-- The score value lodash compares (always present after applyScore). -/
def scoreVal (p : Property) : Int := p.score.getD 0

/-- The comparison of orderBy(.., ['score', 'price'], ['desc', 'asc']):
a precedes-or-ties b iff a has the larger score, or equal scores and a price
at most b's. -/
def rankLE (a b : Property) : Prop :=
  scoreVal b < scoreVal a ∨ (scoreVal a = scoreVal b ∧ a.price ≤ b.price)

instance : DecidableRel rankLE := fun a b => by unfold rankLE; infer_instance

/-- PropertyService.rankProperties.  lodash orderBy is a stable sort; a stable
sort with respect to a total preorder has a unique output, and insertionSort
with the non-strict precedes-or-ties relation rankLE is such a stable sort. -/
def rankProperties (properties : List Property) (criteria : SearchCriteria)
    (now : Int) : List Property :=
  List.insertionSort rankLE (properties.map (applyScore criteria now))

/-- One price range of createPriceRanges (source field names: range, min, max). -/
structure PriceRange where
  range : String
  lo : ℚ
  hi : ℚ
deriving DecidableEq, Repr

/-- JS Math.min over a spread array (the empty case, JS Infinity, is
unreachable at every call site and mapped to 0). -/
def listMinQ : List ℚ → ℚ
  | [] => 0
  | x :: t => t.foldl min x

/-- JS Math.max over a spread array (empty case unreachable, mapped to 0). -/
def listMaxQ : List ℚ → ℚ
  | [] => 0
  | x :: t => t.foldl max x

/-- JS Math.min over integer prices (empty case unreachable, mapped to 0). -/
def listMinInt : List Int → Int
  | [] => 0
  | x :: t => t.foldl min x

/-- JS Math.max over integer prices (empty case unreachable, mapped to 0). -/
def listMaxInt : List Int → Int
  | [] => 0
  | x :: t => t.foldl max x

/-- PropertyService.createPriceRanges. -/
def createPriceRanges (properties : List Property) : List PriceRange :=
  let prices := properties.map fun p => (p.price : ℚ)
  let mn := listMinQ prices
  let mx := listMaxQ prices
  let rangeSize := (mx - mn) / 4
  [ ⟨"budget", mn, mn + rangeSize⟩,
    ⟨"affordable", mn + rangeSize, mn + 2 * rangeSize⟩,
    ⟨"premium", mn + 2 * rangeSize, mn + 3 * rangeSize⟩,
    ⟨"luxury", mn + 3 * rangeSize, mx⟩ ]

/-- The for-loop of selectFromUnrepresentedPriceRange over the price ranges. -/
def pickUnrepresented (remaining : List Property)
    (selectedRanges : List (Option String)) : List PriceRange → Option Property
  | [] => none
  | r :: rest =>
    if some r.range ∈ selectedRanges then pickUnrepresented remaining selectedRanges rest
    else
      match remaining.find? (fun p =>
        decide (r.lo ≤ (p.price : ℚ)) && decide ((p.price : ℚ) ≤ r.hi)) with
      | some c => some c
      | none => pickUnrepresented remaining selectedRanges rest

/-- PropertyService.selectFromUnrepresentedPriceRange. -/
def selectFromUnrepresentedPriceRange (remaining selected : List Property)
    (priceRanges : List PriceRange) : Option Property :=
  let selectedRanges := selected.map fun p =>
    (priceRanges.find? fun r =>
      decide (r.lo ≤ (p.price : ℚ)) && decide ((p.price : ℚ) ≤ r.hi)).map PriceRange.range
  pickUnrepresented remaining selectedRanges priceRanges

/-- PropertyService.selectDifferentPropertyType. -/
def selectDifferentPropertyType (remaining selected : List Property) : Option Property :=
  let selectedTypes := selected.map Property.propertyType
  remaining.find? fun p => decide (p.propertyType ∉ selectedTypes)

/-- PropertyService.selectDifferentBedroomCount. -/
def selectDifferentBedroomCount (remaining selected : List Property) : Option Property :=
  let selectedBedrooms := selected.map Property.bedrooms
  remaining.find? fun p => decide (p.bedrooms ∉ selectedBedrooms)

/-- The selection chain of one iteration of the diversification loop
(stages 1-3 and the highest-scoring fallback remaining[0]). -/
def pickNext (criteria : SearchCriteria) (priceRanges : List PriceRange)
    (diversified remaining : List Property) : Option Property :=
  let stage1 :=
    if diversified.length < 5 then
      selectFromUnrepresentedPriceRange remaining diversified priceRanges
    else none
  let stage2 :=
    match stage1 with
    | some p => some p
    | none =>
      if criteria.propertyType = .any then
        selectDifferentPropertyType remaining diversified
      else none
  let stage3 :=
    match stage2 with
    | some p => some p
    | none => selectDifferentBedroomCount remaining diversified
  match stage3 with
  | some p => some p
  | none => remaining.head?

/-- The while loop of diversifyResults: repeatedly pick the next diverse
property, append it, and remove it from the remaining pool.  The loop is
written with an explicit fuel so that it is structurally recursive; fuel is
initialized to the length of the remaining pool, which by pickNext_mem (each
iteration removes one member of the pool) can never be exhausted before the
loop condition of the source fails, so the 0-fuel clause is unreachable. -/
def diversifyLoop (criteria : SearchCriteria) (priceRanges : List PriceRange)
    (maxResults : ℕ) : ℕ → List Property → List Property → List Property
  | 0, diversified, _ => diversified
  | fuel + 1, diversified, remaining =>
    if diversified.length < maxResults ∧ remaining ≠ [] then
      match pickNext criteria priceRanges diversified remaining with
      | some np =>
        diversifyLoop criteria priceRanges maxResults fuel
          (diversified ++ [np]) (remaining.erase np)
      | none => diversified
    else diversified

/-- PropertyService.diversifyResults (default maxResults 15 is supplied at the
call sites). -/
def diversifyResults (properties : List Property) (criteria : SearchCriteria)
    (maxResults : ℕ) : List Property :=
  if properties.length ≤ maxResults then properties
  else diversifyLoop criteria (createPriceRanges properties) maxResults
    properties.length [] properties

/-- PropertyService.filterProperties. -/
def filterProperties (properties : List Property) (criteria : SearchCriteria) :
    List Property :=
  properties.filter fun p =>
    if truthyInt criteria.minPrice && decide (p.price < criteria.minPrice.getD 0) then false
    else if truthyInt criteria.maxPrice && decide (p.price > criteria.maxPrice.getD 0) then false
    else if truthyNum criteria.bedrooms && decide (p.bedrooms < criteria.bedrooms.getD 0) then false
    else if truthyNum criteria.bathrooms && decide (p.bathrooms < criteria.bathrooms.getD 0) then false
    else if criteria.propertyType != .any && p.propertyType != criteria.propertyType then false
    else true

/-- PropertyService.generateRecommendations (Date.now() as parameter). -/
def generateRecommendations (property : Property) (criteria : SearchCriteria)
    (now : Int) : List String :=
  let valueRecs : List String :=
    match property.squareFootage with
    | some sqft =>
      if sqft != 0 then
        let pricePerSqFt := (property.price : ℚ) / sqft
        let isRental := property.listingType = ListingType.rent
        let avgPricePerSqFt : ℚ := if isRental then 2 else 150
        if pricePerSqFt < avgPricePerSqFt * (9/10) then
          ["💰 Excellent value - below market price per sq ft"]
        else []
      else []
    | none => []
  let sizeRecs : List String :=
    if truthyNum criteria.bedrooms && decide (property.bedrooms > criteria.bedrooms.getD 0) then
      ["🛏️ Extra bedroom - great for guests or home office"]
    else []
  let premiumNames := ["pool", "gym", "concierge", "doorman", "rooftop"]
  let premiumMatched := property.features.filter fun feature =>
    premiumNames.any fun premium => jsIncludes (jsToLower feature) premium
  let featureRecs : List String :=
    if premiumMatched.length > 0 then
      ["✨ Premium amenities: " ++ String.intercalate ", " (premiumMatched.take 2)]
    else []
  let daysSinceAdded : ℚ := ((now : ℚ) - (property.dateAdded : ℚ)) / (1000 * 60 * 60 * 24)
  let freshRecs : List String :=
    if daysSinceAdded < 3 then ["🆕 Recently listed - act fast!"] else []
  let budgetRecs : List String :=
    if truthyInt criteria.maxPrice &&
        decide ((property.price : ℚ) < (criteria.maxPrice.getD 0 : Int) * (85/100)) then
      let savings := criteria.maxPrice.getD 0 - property.price
      let monthlySavings :=
        if property.listingType = ListingType.rent then savings
        else jsRound ((savings : ℚ) / 360)
      [ "💵 " ++
        (if monthlySavings > 0 then
          "Save $" ++ jsToLocaleString monthlySavings ++
          (if property.listingType = ListingType.rent then "/month" else "/month on mortgage")
        else "Within budget") ]
    else []
  (valueRecs ++ sizeRecs ++ featureRecs ++ freshRecs ++ budgetRecs).take 3

/-- The qualitative price-position label of generateMarketInsights. -/
def pricePositionLabel (pp : ℚ) : String :=
  if pp < 1/4 then "Great Deal"
  else if pp < 1/2 then "Good Value"
  else if pp < 3/4 then "Market Rate"
  else "Premium"

/-- The comparable-peer filter of generateMarketInsights: same unit type and
bedroom count within 1. -/
def comparablesIn (allProperties : List Property) (property : Property) :
    List Property :=
  allProperties.filter fun p =>
    p.propertyType == property.propertyType &&
    decide (|p.bedrooms - property.bedrooms| ≤ 1)

/-- PropertyService.generateMarketInsights: the empty object returned when
fewer than 2 comparables exist is modelled as none. -/
def generateMarketInsights (property : Property) (allProperties : List Property) :
    Option MarketInsights :=
  let similarProperties := comparablesIn allProperties property
  if similarProperties.length < 2 then none
  else
    let prices := similarProperties.map Property.price
    let avgPrice : ℚ := ((prices.foldl (· + ·) 0 : Int) : ℚ) / (prices.length : ℚ)
    let sorted := List.insertionSort (fun a b : Int => a ≤ b) prices
    let medianPrice := sorted.getD (prices.length / 2) 0
    let pricePercentile : ℚ :=
      ((sorted.filter fun p => p ≤ property.price).length : ℚ) / (sorted.length : ℚ)
    some
      { averagePrice := jsRound avgPrice
        medianPrice := jsRound (medianPrice : ℚ)
        pricePercentile := jsRound (pricePercentile * 100)
        totalComparables := similarProperties.length
        pricePosition := pricePositionLabel pricePercentile }

/-- PropertyService.addSmartRecommendations. -/
def addSmartRecommendations (properties : List Property) (criteria : SearchCriteria)
    (now : Int) : List AnnotatedProperty :=
  properties.map fun property =>
    { property := property
      recommendations := generateRecommendations property criteria now
      marketInsights := generateMarketInsights property properties }

/-- PropertyService.aggregateAndProcess: filter, dedup, rank, diversify to 15,
annotate. -/
def aggregateAndProcess (properties : List Property) (criteria : SearchCriteria)
    (now : Int) : List AnnotatedProperty :=
  let filtered := filterProperties properties criteria
  let deduplicated := deduplicateProperties filtered
  let ranked := rankProperties deduplicated criteria now
  let diversified := diversifyResults ranked criteria 15
  addSmartRecommendations diversified criteria now

/-- The filtered, deduplicated, ranked candidate set of aggregateAndProcess
(the full scored set, before diversification). -/
def rankedCandidates (properties : List Property) (criteria : SearchCriteria)
    (now : Int) : List Property :=
  rankProperties (deduplicateProperties (filterProperties properties criteria))
    criteria now

/-- The diversified subset that aggregateAndProcess hands to the annotator. -/
def diversifiedCandidates (properties : List Property) (criteria : SearchCriteria)
    (now : Int) : List Property :=
  diversifyResults (rankedCandidates properties criteria now) criteria 15

/-- The priceRange object of getSearchSummary. -/
structure PriceRangeSummary where
  min : Int
  max : Int
deriving DecidableEq, Repr

/-- The return shape of getSearchSummary; the propertyTypes record is an
insertion-ordered association list, matching JS object key order. -/
structure SearchSummary where
  totalCount : ℕ
  averagePrice : Int
  priceRange : PriceRangeSummary
  propertyTypes : List (String × ℕ)
deriving DecidableEq, Repr

/-- Increment the count for a key in an insertion-ordered record
(`propertyTypes[t] = (propertyTypes[t] || 0) + 1`). -/
def bumpCount (key : String) : List (String × ℕ) → List (String × ℕ)
  | [] => [(key, 1)]
  | (k, v) :: t => if k = key then (k, v + 1) :: t else (k, v) :: bumpCount key t

/-- PropertyService.getSearchSummary. -/
def getSearchSummary (properties : List Property) : SearchSummary :=
  if properties.length = 0 then
    { totalCount := 0
      averagePrice := 0
      priceRange := { min := 0, max := 0 }
      propertyTypes := [] }
  else
    let prices := properties.map Property.price
    let averagePrice : ℚ := ((prices.foldl (· + ·) 0 : Int) : ℚ) / (prices.length : ℚ)
    let minPrice := listMinInt prices
    let maxPrice := listMaxInt prices
    let propertyTypes := properties.foldl (fun acc p => bumpCount p.propertyType.str acc) []
    { totalCount := properties.length
      averagePrice := jsRound averagePrice
      priceRange := { min := minPrice, max := maxPrice }
      propertyTypes := propertyTypes }

/-! ## RealEstateApiClient (API layer) -/

/-- The subset of a scraped provider record inspected by
detectPropertyTypeFromScrapedData and built by the mock generator. -/
structure ScrapedItem where
  home_type : Option String
  propertyType : Option String
  type : Option String
  address : Option String
  street : Option String
deriving DecidableEq, Repr

/-- First truthy string of a JS `a || b || c` chain. -/
def firstTruthyStr : List (Option String) → Option String
  | [] => none
  | o :: t => if truthyStr o then o else firstTruthyStr t

/-- RealEstateApiClient.detectPropertyTypeFromScrapedData.  The two fall-through
branches for a specific requested type both return house (they differ only in
the log message) and are merged here. -/
def detectPropertyTypeFromScrapedData (item : ScrapedItem)
    (requestedType : PropertyType) : PropertyType :=
  let explicitResult : Option PropertyType :=
    match firstTruthyStr [item.home_type, item.propertyType, item.type] with
    | none => none
    | some raw =>
      let typeStr := jsToLower raw
      if jsIncludes typeStr "apartment" || jsIncludes typeStr "apt" ||
          jsIncludes typeStr "multi-family" || jsIncludes typeStr "multifamily" then
        some .apartment
      else if jsIncludes typeStr "house" || jsIncludes typeStr "single family" ||
          jsIncludes typeStr "single-family" || jsIncludes typeStr "single_family" ||
          jsIncludes typeStr "single family residence" ||
          jsIncludes typeStr "residential" || jsIncludes typeStr "sfr" then
        some .house
      else if jsIncludes typeStr "condo" || jsIncludes typeStr "condominium" then
        some .condo
      else if jsIncludes typeStr "townhouse" || jsIncludes typeStr "townhome" then
        some .townhouse
      else none
  match explicitResult with
  | some t => t
  | none =>
    let address := orElseStr item.address (orElseStr item.street "")
    if jsIncludes (jsToLower address) "unit " || jsIncludes (jsToLower address) "apt " ||
        jsIncludes (jsToLower address) "#" then
      .apartment
    else if requestedType ≠ .any then
      .house
    else
      requestedType

/-- The per-type string options of propertyTypeToZillowMockType. -/
def zillowMockTypeOptions : PropertyType → List String
  | .house => ["Houses", "Single family residence", "single-family", "residential"]
  | .apartment => ["Apartments", "apartment", "apt"]
  | .condo => ["Condos", "condominium", "condo"]
  | .townhouse => ["Townhouses", "townhome", "townhouse"]
  | .any => [""]

/-- RealEstateApiClient.propertyTypeToZillowMockType, with its Math.random()
draw passed in. -/
def propertyTypeToZillowMockType (t : PropertyType) (r : ℚ) : String :=
  let options := zillowMockTypeOptions t
  options.getD (jsFloorNat (r * (options.length : ℚ))) ""

/-- RealEstateApiClient.getRandomPropertyType (out-of-[0,1) draws, impossible
for Math.random, are mapped to the first element). -/
def getRandomPropertyType (r : ℚ) : PropertyType :=
  [PropertyType.house, PropertyType.apartment, PropertyType.condo,
    PropertyType.townhouse].getD (jsFloorNat (r * 4)) PropertyType.house

/-- RealEstateApiClient.getRandomListingType. -/
def getRandomListingType (r : ℚ) : ListingType :=
  [ListingType.rent, ListingType.buy].getD (jsFloorNat (r * 2)) ListingType.rent

/-- RealEstateApiClient.getRandomStreetName. -/
def getRandomStreetName (r : ℚ) : String :=
  ["Main St", "Oak Ave", "Pine Rd", "Elm Dr", "Maple Ln", "Cedar Blvd",
    "Park Way"].getD (jsFloorNat (r * 7)) "Main St"

/-- One entry of the diversityConfigs table of generateMockProperties. -/
structure MockConfig where
  bedrooms : ℚ
  bathrooms : ℚ
  priceMultiplier : ℚ
  sqftLo : Int
  sqftHi : Int
  featureSet : ℕ
deriving DecidableEq, Repr

/-- The diversityConfigs table. -/
def diversityConfigs : List MockConfig :=
  [ ⟨1, 1, 6/10, 400, 800, 0⟩,
    ⟨2, 1, 8/10, 600, 1200, 1⟩,
    ⟨2, 2, 1, 800, 1400, 2⟩,
    ⟨3, 2, 13/10, 1000, 1800, 3⟩,
    ⟨4, 3, 16/10, 1400, 2200, 4⟩ ]

/-- The featureSets table. -/
def featureSets : List (List String) :=
  [ ["In-unit laundry", "Balcony", "Pet-friendly"],
    ["Gym", "Pool", "Doorman"],
    ["Garage", "Garden", "Fireplace"],
    ["Elevator", "Rooftop deck", "Storage"],
    ["Bike storage", "Concierge", "Hardwood floors"] ]

/-- The listingDomains table with its MockAPI fallback. -/
def listingDomains (source : String) : List String :=
  if source = "Apify" then
    ["https://www.realtor.com/realestateandhomes-detail",
     "https://www.zillow.com/homedetails",
     "https://www.trulia.com/p",
     "https://www.redfin.com/home"]
  else if source = "Zillow" then
    ["https://www.zillow.com/homedetails", "https://www.zillow.com/b"]
  else
    ["https://www.apartments.com/listing",
     "https://www.rent.com/property",
     "https://www.rentals.com/details",
     "https://www.padmapper.com/apartments"]

/-- One iteration of the generateMockProperties loop.  Math.random() draws are
taken from the stream rand at the cursor k in exactly the order the source
calls Math.random(); the result is none when the iteration ends in the
`continue` that filters out a non-matching detected type. -/
def mockIteration (criteria : SearchCriteria) (source : String)
    (domains : List String) (now : Int) (rand : ℕ → ℚ) (i : ℕ) (k : ℕ) :
    Option Property × ℕ :=
  let cfg := diversityConfigs.getD (i % 5) ⟨1, 1, 1, 0, 0, 0⟩
  let basePrice := orElseInt criteria.minPrice 200000
  let maxPrice := orElseInt criteria.maxPrice 800000
  let price0 : Int :=
    ⌊((basePrice : ℚ) + rand k * ((maxPrice : ℚ) - (basePrice : ℚ))) * cfg.priceMultiplier⌋
  let k := k + 1
  let bedrooms := max (orElseQ criteria.bedrooms cfg.bedrooms) cfg.bedrooms
  let bathrooms := max (orElseQ criteria.bathrooms cfg.bathrooms) cfg.bathrooms
  let step :=
    if criteria.propertyType = .any then
      let t := getRandomPropertyType (rand k)
      (t, propertyTypeToZillowMockType t (rand (k + 1)), k + 2)
    else
      if rand k > 1/20 then
        let t := criteria.propertyType
        (t, propertyTypeToZillowMockType t (rand (k + 1)), k + 2)
      else if criteria.propertyType = .apartment then
        let rt := if rand (k + 1) > 1/2 then PropertyType.condo else PropertyType.townhouse
        (rt, propertyTypeToZillowMockType rt (rand (k + 2)), k + 3)
      else
        let rt := if criteria.propertyType = .house then PropertyType.townhouse
          else PropertyType.house
        (rt, propertyTypeToZillowMockType rt (rand (k + 1)), k + 2)
  let ptype := step.1
  let actualZillowType := step.2.1
  let k := step.2.2
  let features := jsSetDedup (criteria.features ++ featureSets.getD cfg.featureSet [])
  let streetNumber : Int := ⌊rand k * 9999⌋ + 1
  let k := k + 1
  let streetName := getRandomStreetName (rand k)
  let k := k + 1
  let squareFootage : Int := ⌊rand k * ((cfg.sqftHi - cfg.sqftLo : Int) : ℚ)⌋ + cfg.sqftLo
  let k := k + 1
  let addrStep :=
    if ptype = .apartment then
      let unitNumber : Int := ⌊rand k * 500⌋ + 101
      (toString streetNumber ++ " " ++ streetName ++ ", Unit " ++ toString unitNumber,
        (if criteria.listingType = .rent then ⌊(price0 : ℚ) * (7/10)⌋ else price0),
        k + 1)
    else
      (toString streetNumber ++ " " ++ streetName, price0, k)
  let address := addrStep.1
  let price := addrStep.2.1
  let k := addrStep.2.2
  let mockItem : ScrapedItem :=
    { home_type := none, propertyType := some actualZillowType, type := none,
      address := some address, street := none }
  let detectedType := detectPropertyTypeFromScrapedData mockItem criteria.propertyType
  if criteria.propertyType ≠ .any ∧ detectedType ≠ criteria.propertyType then
    (none, k)
  else
    let propertyId := randBase36Id (rand k)
    let k := k + 1
    let domain := domains.getD (jsFloorNat (rand k * (domains.length : ℚ))) ""
    let k := k + 1
    let slugNum : Int := ⌊rand k * 90000⌋ + 10000
    let k := k + 1
    let urlSlug := toString streetNumber ++ "-" ++ jsReplaceWs (jsToLower streetName) ++ "-"
      ++ jsReplaceWs (jsToLower criteria.city) ++ "-"
      ++ orElseStr (criteria.state.map jsToLower) "ca" ++ "-" ++ toString slugNum
    let listingUrl := domain ++ "/" ++ urlSlug ++ "/" ++ propertyId ++ "?demo=true"
    let zipCode := toString (⌊rand k * 90000⌋ + 10000 : Int)
    let k := k + 1
    let ltypeStep :=
      if criteria.listingType = .any then (getRandomListingType (rand k), k + 1)
      else (criteria.listingType, k)
    let ltype := ltypeStep.1
    let k := ltypeStep.2
    let dateAdded := jsTrunc ((now : ℚ) - rand k * (30 * 24 * 60 * 60 * 1000))
    let k := k + 1
    (some
      { id := jsToLower source ++ "-" ++ toString (i + 1)
        address := address
        city := criteria.city
        state := orElseStr criteria.state "OH"
        zipCode := zipCode
        listingType := ltype
        price := price
        bedrooms := bedrooms
        bathrooms := bathrooms
        squareFootage := some (squareFootage : ℚ)
        propertyType := detectedType
        description := some ("Beautiful " ++ detectedType.str ++ " in " ++ criteria.city
          ++ (if detectedType = .apartment then " with modern amenities"
              else " with spacious rooms"))
        features := features
        imageUrls :=
          ["https://photos.zillowstatic.com/fp/" ++ propertyId ++ "-cc_ft_768.jpg",
           "https://photos.zillowstatic.com/fp/" ++ propertyId
             ++ "-uncropped_scaled_within_1536_1152.jpg"]
        listingUrl := listingUrl
        source := source
        dateAdded := dateAdded
        score := none }, k)

/-- The for-loop of generateMockProperties: n remaining iterations, current
index i, random cursor k. -/
def mockLoop (criteria : SearchCriteria) (source : String) (domains : List String)
    (now : Int) (rand : ℕ → ℚ) : ℕ → ℕ → ℕ → List Property
  | 0, _, _ => []
  | n + 1, i, k =>
    match mockIteration criteria source domains now rand i k with
    | (some p, k2) => p :: mockLoop criteria source domains now rand n (i + 1) k2
    | (none, k2) => mockLoop criteria source domains now rand n (i + 1) k2

/-- RealEstateApiClient.generateMockProperties: 5 to 20 iterations driven by
the random stream. -/
def generateMockProperties (criteria : SearchCriteria) (source : String)
    (rand : ℕ → ℚ) (k : ℕ) (now : Int) : List Property :=
  let count := jsFloorNat (rand k * 15) + 5
  let domains := listingDomains source
  mockLoop criteria source domains now rand count 0 (k + 1)

/-! ## Cache and aggregation entry point -/

/-- The CacheEntry interface: captured list, capture timestamp, and the
JSON-stringified criteria (the latter is never read back). -/
structure CacheEntry where
  data : List Property
  timestamp : Int
  criteria : String
deriving DecidableEq, Repr

/-- The JS Map, as an insertion-ordered association list with unique keys. -/
abbrev Cache := List (String × CacheEntry)

/-- CACHE_TTL = 10 minutes in milliseconds. -/
def CACHE_TTL : Int := 10 * 60 * 1000

/-- MAX_CACHE_SIZE. -/
def MAX_CACHE_SIZE : ℕ := 100

/-- Map.prototype.get. -/
def cacheGet (cache : Cache) (key : String) : Option CacheEntry :=
  (cache.find? fun e => e.1 == key).map Prod.snd

/-- Map.prototype.set: update in place when the key exists (keeping its
insertion position, as JS Maps do), else append. -/
def cacheSet (cache : Cache) (key : String) (entry : CacheEntry) : Cache :=
  match cache with
  | [] => [(key, entry)]
  | (k, v) :: t => if k = key then (k, entry) :: t else (k, v) :: cacheSet t key entry

/-- A minimal JSON string quotation (no escaping; the stored criteria JSON is
never read back by the code). -/
def jsonQuote (s : String) : String := "\"" ++ s ++ "\""

/-- JSON.stringify of a SearchCriteria value, fields in interface order,
undefined fields omitted.  (Rationals print in Lean notation rather than JS
decimal notation; the string is never read back.) -/
def jsonStringifyCriteria (c : SearchCriteria) : String :=
  let fields : List String :=
    ["\"city\":" ++ jsonQuote c.city]
    ++ (match c.state with | some s => ["\"state\":" ++ jsonQuote s] | none => [])
    ++ ["\"listingType\":" ++ jsonQuote c.listingType.str]
    ++ (match c.minPrice with | some v => ["\"minPrice\":" ++ toString v] | none => [])
    ++ (match c.maxPrice with | some v => ["\"maxPrice\":" ++ toString v] | none => [])
    ++ ["\"propertyType\":" ++ jsonQuote c.propertyType.str]
    ++ (match c.bedrooms with | some v => ["\"bedrooms\":" ++ toString v] | none => [])
    ++ (match c.bathrooms with | some v => ["\"bathrooms\":" ++ toString v] | none => [])
    ++ ["\"features\":[" ++ String.intercalate "," (c.features.map jsonQuote) ++ "]"]
  "\x7b" ++ String.intercalate "," fields ++ "\x7d"

/-- RealEstateApiClient.getFromCache: a read returning null on absence and
lazily purging (and missing on) entries strictly older than the TTL. -/
def getFromCache (cache : Cache) (key : String) (now : Int) :
    Option (List Property) × Cache :=
  match cacheGet cache key with
  | none => (none, cache)
  | some entry =>
    if now - entry.timestamp > CACHE_TTL then
      (none, cache.eraseP fun e => e.1 == key)
    else (some entry.data, cache)

/-- RealEstateApiClient.addToCache: evict the oldest (first-inserted) entry
when full — skipped when its key is the falsy empty string — then store a
defensive copy of the list (the copy equals the list as a value). -/
def addToCache (cache : Cache) (key : String) (data : List Property)
    (criteria : SearchCriteria) (now : Int) : Cache :=
  let cache1 :=
    if cache.length ≥ MAX_CACHE_SIZE then
      match cache with
      | [] => []
      | (oldestKey, _) :: _ =>
        if oldestKey ≠ "" then cache.eraseP fun e => e.1 == oldestKey else cache
    else cache
  cacheSet cache1 key
    { data := data, timestamp := now, criteria := jsonStringifyCriteria criteria }

/-- RealEstateApiClient.generateCacheKey.  criteria.features.sort() sorts the
caller's array in place; the returned pair is (key, criteria as it is left
after the call). -/
def generateCacheKey (criteria : SearchCriteria) : String × SearchCriteria :=
  let sortedFeatures :=
    List.insertionSort (fun a b : String => jsStrLE a b = true) criteria.features
  let keyParts : List String :=
    [ jsToLower criteria.city,
      jsToLower (orElseStr criteria.state ""),
      criteria.listingType.str,
      criteria.propertyType.str,
      (match criteria.minPrice with | some v => toString v | none => ""),
      (match criteria.maxPrice with | some v => toString v | none => ""),
      (match criteria.bedrooms with | some v => toString v | none => ""),
      (match criteria.bathrooms with | some v => toString v | none => ""),
      String.intercalate "," sortedFeatures ]
  (String.intercalate "|" (keyParts.filter fun part => part ≠ ""),
    { criteria with features := sortedFeatures })

/-- The provider-configuration flags consumed by searchProperties. -/
structure ApiConfig where
  useMockData : Bool
  strictApiMode : Bool
  hasValidApify : Bool
  hasValidZillow : Bool
  hasValidRentberry : Bool
  hasValidRentals : Bool
deriving DecidableEq, Repr

/-- Config.hasAnyValidApiConfig. -/
def hasAnyValidApiConfig (c : ApiConfig) : Bool :=
  c.hasValidApify || c.hasValidZillow || c.hasValidRentberry || c.hasValidRentals

/-- The strict-mode hard-failure message thrown by searchProperties. -/
def noResultsMsg : String :=
  "🚫 No results from APIs. Strict API mode enabled - mock data disabled. Check your API keys and network connection."

/-- The provider calls issued by searchProperties, as their settled outcomes
(Promise.allSettled semantics: each configured provider call is modelled by a
fulfilled list or a rejection reason, passed as a parameter). -/
def settledOutcomes (cfg : ApiConfig)
    (apifyOutcome zillowOutcome : Except String (List Property)) :
    List (Except String (List Property)) :=
  (if cfg.hasValidApify then [apifyOutcome] else [])
    ++ (if cfg.hasValidZillow then [zillowOutcome] else [])

/-- The Promise.allSettled merge loop: fulfilled lists are appended in order,
rejected calls contribute nothing. -/
def mergeOutcomes (settled : List (Except String (List Property))) : List Property :=
  settled.foldl (fun acc r => match r with | .ok v => acc ++ v | .error _ => acc) []

/-- RealEstateApiClient.searchProperties.  Rejected provider outcomes are
logged and contribute nothing; the strict-mode throw inside the try block is
rethrown unchanged by the catch handler.  Returns the result and the updated
cache. -/
def searchProperties (cfg : ApiConfig) (criteria0 : SearchCriteria) (cache0 : Cache)
    (apifyOutcome zillowOutcome : Except String (List Property))
    (rand : ℕ → ℚ) (k : ℕ) (now : Int) : Except String (List Property) × Cache :=
  let keyStep := generateCacheKey criteria0
  let cacheKey := keyStep.1
  let criteria := keyStep.2
  let readStep := getFromCache cache0 cacheKey now
  let cache := readStep.2
  match readStep.1 with
  | some cachedResult => (.ok cachedResult, cache)
  | none =>
    let hasValidApis := hasAnyValidApiConfig cfg
    let shouldUseStrictMode := cfg.strictApiMode && hasValidApis
    if cfg.useMockData || (!hasValidApis && !shouldUseStrictMode) then
      let mockResults := generateMockProperties criteria "MockAPI" rand k now
      (.ok mockResults, addToCache cache cacheKey mockResults criteria now)
    else
      let results := mergeOutcomes (settledOutcomes cfg apifyOutcome zillowOutcome)
      if results.isEmpty then
        if shouldUseStrictMode then
          (.error noResultsMsg, cache)
        else
          let mockResults := generateMockProperties criteria "MockAPI" rand k now
          (.ok mockResults, addToCache cache cacheKey mockResults criteria now)
      else
        (.ok results, addToCache cache cacheKey results criteria now)




/-! ## Fixtures used by witnesses and counterexamples -/

/-- A baseline listing record for concrete instantiations. -/
def baseProp : Property :=
  { id := "p1", address := "100 Main St", city := "Columbus", state := "OH",
    zipCode := "43004", listingType := .buy, price := 300000, bedrooms := 3,
    bathrooms := 2, squareFootage := none, propertyType := .house,
    description := none, features := [], imageUrls := [],
    listingUrl := "https://example.com/1", source := "Zillow", dateAdded := 0,
    score := none }

/-- A baseline criteria value with no optional filters. -/
def baseCriteria : SearchCriteria :=
  { city := "Columbus", state := some "OH", listingType := .buy,
    minPrice := none, maxPrice := none, propertyType := .any,
    bedrooms := none, bathrooms := none, features := [] }

/-- Criteria with a 100k-200k price window, for the score bound claims. -/
def c1crit : SearchCriteria := { baseCriteria with minPrice := some 100000, maxPrice := some 200000 }

/-- A listing priced far above the requested window. -/
def c1prop : Property := { baseProp with address := "1 Far St", price := 10000000, zipCode := "99999" }

/-- Two records whose addresses differ only in letter case, same price. -/
def c4caseA : Property := { baseProp with address := "100 MAIN St" }

/-- See c4caseA. -/
def c4caseB : Property := { baseProp with id := "p2", address := "100 main st", squareFootage := some 1200 }

/-- Two records whose addresses differ only in leading whitespace, same price. -/
def c4wsA : Property := baseProp

/-- See c4wsA. -/
def c4wsB : Property := { baseProp with id := "p2", address := " 100 Main St" }

/-- Two listings with distinct prices (hence distinct ranking keys). -/
def c8q1 : Property := { baseProp with id := "q1", address := "1 A St", price := 200000 }

/-- See c8q1. -/
def c8q2 : Property := { baseProp with id := "q2", address := "2 B St", price := 250000 }

/-- Two listings identical except for address (same score, same price). -/
def c8r1 : Property := baseProp

/-- See c8r1. -/
def c8r2 : Property := { baseProp with id := "r2", address := "200 Oak Ave" }

/-- The scored form of baseProp under baseCriteria at time 0. -/
def c7scored : Property := applyScore baseCriteria 0 baseProp

/-- The single annotated record that aggregateAndProcess produces from
[baseProp] under baseCriteria at time 0. -/
def c7ap : AnnotatedProperty :=
  { property := c7scored
    recommendations := generateRecommendations c7scored baseCriteria 0
    marketInsights := generateMarketInsights c7scored [c7scored] }

/-- Sixteen same-type, same-bedroom-count listings at distinct addresses:
more than the diversification cap, so one is dropped before annotation. -/
def props16 : List Property :=
  (List.range 16).map fun i =>
    { baseProp with
      id := toString i
      address := "A" ++ toString i ++ " St"
      price := 100000 + (i : Int) }

/-- An apartment rental search. -/
def c2aptCrit : SearchCriteria :=
  { baseCriteria with listingType := .rent, propertyType := .apartment }

/-- Non-strict configuration with one validly configured provider (Zillow). -/
def c2cfgNS : ApiConfig :=
  { useMockData := false, strictApiMode := false, hasValidApify := false,
    hasValidZillow := true, hasValidRentberry := false, hasValidRentals := false }

/-- Strict configuration with one validly configured provider (Zillow). -/
def c2cfgS : ApiConfig := { c2cfgNS with strictApiMode := true }

/-- The all-zeros random stream: the minimum iteration count, and every
iteration of the mock generator takes the 5%-noise branch. -/
def zeroRand : ℕ → ℚ := fun _ => 0

/-- Degenerate criteria: both price bounds truthy and equal. -/
def c1eqCrit : SearchCriteria :=
  { baseCriteria with minPrice := some 150000, maxPrice := some 150000 }

/-- A listing priced exactly at the degenerate window midpoint. -/
def c1midProp : Property := { baseProp with price := 150000 }

/-! ## Instances and reducibility needed by the proofs -/

deriving instance DecidableEq for Except

unseal Rat.add Rat.mul Rat.inv Rat.sub

/-- Does an explicit provider type string match any of the known
apartment/house/condo/townhouse indicators of
detectPropertyTypeFromScrapedData? -/
def matchesTypeIndicator (raw : String) : Bool :=
  let typeStr := jsToLower raw
  jsIncludes typeStr "apartment" || jsIncludes typeStr "apt" ||
  jsIncludes typeStr "multi-family" || jsIncludes typeStr "multifamily" ||
  jsIncludes typeStr "house" || jsIncludes typeStr "single family" ||
  jsIncludes typeStr "single-family" || jsIncludes typeStr "single_family" ||
  jsIncludes typeStr "single family residence" ||
  jsIncludes typeStr "residential" || jsIncludes typeStr "sfr" ||
  jsIncludes typeStr "condo" || jsIncludes typeStr "condominium" ||
  jsIncludes typeStr "townhouse" || jsIncludes typeStr "townhome"

/-- The record carries no explicit, confidently-mapped unit type: either no
truthy type field, or a type string matching none of the known indicators. -/
def noConfidentTypeString (item : ScrapedItem) : Bool :=
  match firstTruthyStr [item.home_type, item.propertyType, item.type] with
  | none => true
  | some raw => !(matchesTypeIndicator raw)

/-- The record's address (or street) contains an apartment indicator. -/
def hasAptAddressIndicator (item : ScrapedItem) : Bool :=
  let address := orElseStr item.address (orElseStr item.street "")
  jsIncludes (jsToLower address) "unit " || jsIncludes (jsToLower address) "apt " ||
  jsIncludes (jsToLower address) "#"

/-- A scraped record with no type information and a plain house address. -/
def c6item : ScrapedItem :=
  { home_type := none, propertyType := none, type := none,
    address := some "123 Main St", street := none }

/-- A scraped record with an unrecognized type string. -/
def c6mobileItem : ScrapedItem :=
  { home_type := some "Mobile Home", propertyType := none, type := none,
    address := some "9 Elm Dr", street := none }

/-! ## Helper lemmas -/

theorem pickUnrepresented_mem {remaining : List Property} {sr : List (Option String)}
    {rs : List PriceRange} {p : Property}
    (h : pickUnrepresented remaining sr rs = some p) : p ∈ remaining := by
  induction rs with
  | nil => simp [pickUnrepresented] at h
  | cons r rest ih =>
    rw [pickUnrepresented] at h
    split at h
    · exact ih h
    · rcases hf : remaining.find? (fun q =>
        decide (r.lo ≤ (q.price : ℚ)) && decide ((q.price : ℚ) ≤ r.hi)) with _ | c
      · rw [hf] at h; exact ih h
      · rw [hf] at h
        cases h
        exact List.mem_of_find?_eq_some hf

theorem pickNext_mem {criteria : SearchCriteria} {pr : List PriceRange}
    {d r : List Property} {p : Property}
    (h : pickNext criteria pr d r = some p) : p ∈ r := by
  unfold pickNext at h
  rcases h1 : (if d.length < 5 then selectFromUnrepresentedPriceRange r d pr else none)
      with _ | q
  all_goals rw [h1] at h
  · rcases h2 : (if criteria.propertyType = .any then selectDifferentPropertyType r d else none)
        with _ | q2
    all_goals simp only [h2] at h
    · rcases h3 : selectDifferentBedroomCount r d with _ | q3
      all_goals simp only [h3] at h
      · exact List.mem_of_mem_head? h
      · cases h
        exact List.mem_of_find?_eq_some h3
    · cases h
      unfold selectDifferentPropertyType at h2
      split at h2
      · exact List.mem_of_find?_eq_some h2
      · cases h2
  · cases h
    unfold selectFromUnrepresentedPriceRange at h1
    split at h1
    · exact pickUnrepresented_mem h1
    · cases h1


/-- Any fuel at least the length of the remaining pool gives the same result:
the while-loop embedding does not depend on the fuel bound. -/
theorem diversifyLoop_fuel_ge (criteria : SearchCriteria) (pr : List PriceRange)
    (maxR : ℕ) : ∀ f₁ f₂ d r, r.length ≤ f₁ → r.length ≤ f₂ →
    diversifyLoop criteria pr maxR f₁ d r = diversifyLoop criteria pr maxR f₂ d r := by
  intro f₁
  induction f₁ with
  | zero =>
    intro f₂ d r h1 _
    have hr : r = [] := List.length_eq_zero.mp (Nat.le_zero.mp h1)
    subst hr
    cases f₂ with
    | zero => rfl
    | succ f₂ => simp [diversifyLoop]
  | succ f₁ ih =>
    intro f₂ d r h1 h2
    cases f₂ with
    | zero =>
      have hr : r = [] := List.length_eq_zero.mp (Nat.le_zero.mp h2)
      subst hr
      simp [diversifyLoop]
    | succ f₂ =>
      show diversifyLoop criteria pr maxR (f₁ + 1) d r
          = diversifyLoop criteria pr maxR (f₂ + 1) d r
      rw [diversifyLoop, diversifyLoop]
      split
      · rename_i hcond
        rcases hp : pickNext criteria pr d r with _ | np
        · rfl
        · have hm : np ∈ r := pickNext_mem hp
          have hl : (r.erase np).length = r.length - 1 := List.length_erase_of_mem hm
          have hpos : 0 < r.length := List.length_pos.mpr hcond.2
          exact ih f₂ (d ++ [np]) (r.erase np) (by omega) (by omega)
      · rfl


/-! ## Claims -/

/-- C10: getSearchSummary applied to the empty property list returns the zero
summary (total 0, average 0, price range 0-0, no type counts): the explicit
guard short-circuits the average and min/max, so no division by zero and no
NaN or infinity can arise on empty input. -/
theorem c10_empty_summary :
    getSearchSummary [] =
      { totalCount := 0, averagePrice := 0,
        priceRange := { min := 0, max := 0 }, propertyTypes := [] } := rfl

theorem floorHalf_min_le (s : ℚ) : (⌊min s 100 + 1/2⌋ : Int) ≤ 100 := by
  have h1 : min s 100 ≤ 100 := min_le_right _ _
  have h2 : min s 100 + 1 / 2 < ((101 : Int) : ℚ) := by push_cast; linarith
  have h3 := Int.floor_lt.mpr h2
  omega

theorem JsNum.div_fin_of_ne (a b : ℚ) (hb : b ≠ 0) :
    JsNum.div (.fin a) (.fin b) = .fin (a / b) := by
  simp [JsNum.div, hb]

theorem priceExpr_cases (pd md : ℚ) (hpd : 0 ≤ pd) :
    (∃ r : ℚ, ((JsNum.fin 1).sub ((JsNum.fin pd).div (JsNum.fin md))).mul
      (JsNum.fin 25) = .fin r) ∨
    ((JsNum.fin 1).sub ((JsNum.fin pd).div (JsNum.fin md))).mul (JsNum.fin 25) = .nan ∨
    ((JsNum.fin 1).sub ((JsNum.fin pd).div (JsNum.fin md))).mul (JsNum.fin 25) = .negInf := by
  by_cases hmd : md = 0
  · subst hmd
    simp only [JsNum.div, if_true]
    by_cases hp0 : pd = 0
    · rw [if_pos hp0]
      right; left; rfl
    · rw [if_neg hp0, if_pos (lt_of_le_of_ne hpd (Ne.symm hp0))]
      right; right; rfl
  · rw [JsNum.div_fin_of_ne _ _ hmd]
    left; exact ⟨_, rfl⟩

theorem priceExpr_corner (pd md : ℚ) (hpd : 0 ≤ pd) (hmd : md = 0) :
    ((JsNum.fin 1).sub ((JsNum.fin pd).div (JsNum.fin md))).mul (JsNum.fin 25) = .nan ∨
    ((JsNum.fin 1).sub ((JsNum.fin pd).div (JsNum.fin md))).mul (JsNum.fin 25) = .negInf := by
  subst hmd
  simp only [JsNum.div, if_true]
  by_cases hp0 : pd = 0
  · rw [if_pos hp0]
    left; rfl
  · rw [if_neg hp0, if_pos (lt_of_le_of_ne hpd (Ne.symm hp0))]
    right; rfl

theorem priceExpr_eq_fin (pd md : ℚ) (hmd : md ≠ 0) :
    ((JsNum.fin 1).sub ((JsNum.fin pd).div (JsNum.fin md))).mul (JsNum.fin 25) =
      .fin ((1 - pd / md) * 25) := by
  rw [JsNum.div_fin_of_ne _ _ hmd]
  show JsNum.fin ((1 + -(pd / md)) * 25) = JsNum.fin ((1 - pd / md) * 25)
  congr 1
  ring

theorem utilExpr_push (u : ℚ) :
    (if u ≤ 8/10 then JsNum.fin 15
     else if u ≤ 95/100 then JsNum.fin 10 else JsNum.fin 5) =
      .fin (if u ≤ 8/10 then 15 else if u ≤ 95/100 then 10 else 5) := by
  rw [apply_ite JsNum.fin, apply_ite JsNum.fin]

theorem calculatePriceScoreJs_cases (p : Property) (c : SearchCriteria) :
    (∃ r : ℚ, calculatePriceScoreJs p c = .fin r) ∨
    calculatePriceScoreJs p c = .nan ∨ calculatePriceScoreJs p c = .negInf := by
  unfold calculatePriceScoreJs
  split
  · exact priceExpr_cases _ _ (abs_nonneg _)
  · split
    · exact Or.inl ⟨_, utilExpr_push _⟩
    · exact Or.inl ⟨_, rfl⟩

theorem calculatePriceScoreJs_corner (p : Property) (c : SearchCriteria)
    (h1 : truthyInt c.minPrice = true) (h2 : truthyInt c.maxPrice = true)
    (h3 : c.minPrice.getD 0 = c.maxPrice.getD 0) :
    calculatePriceScoreJs p c = .nan ∨ calculatePriceScoreJs p c = .negInf := by
  unfold calculatePriceScoreJs
  rw [if_pos (by rw [h1, h2]; rfl)]
  have hmd0 : max ((((c.minPrice.getD 0 : Int) : ℚ) + ((c.maxPrice.getD 0 : Int) : ℚ)) / 2
        - ((c.minPrice.getD 0 : Int) : ℚ))
      (((c.maxPrice.getD 0 : Int) : ℚ)
        - (((c.minPrice.getD 0 : Int) : ℚ) + ((c.maxPrice.getD 0 : Int) : ℚ)) / 2) = 0 := by
    rw [h3]
    have e1 : (((c.maxPrice.getD 0 : Int) : ℚ) + ((c.maxPrice.getD 0 : Int) : ℚ)) / 2
        - ((c.maxPrice.getD 0 : Int) : ℚ) = 0 := by ring
    have e2 : ((c.maxPrice.getD 0 : Int) : ℚ)
        - (((c.maxPrice.getD 0 : Int) : ℚ) + ((c.maxPrice.getD 0 : Int) : ℚ)) / 2 = 0 := by ring
    rw [e1, e2, max_self]
  exact priceExpr_corner _ _ (abs_nonneg _) hmd0

theorem scoreJs_of_price_nan (p : Property) (c : SearchCriteria) (now : Int)
    (h : calculatePriceScoreJs p c = .nan) : calculateScoreJs p c now = .nan := by
  unfold calculateScoreJs
  rw [h]
  rfl

theorem scoreJs_of_price_negInf (p : Property) (c : SearchCriteria) (now : Int)
    (h : calculatePriceScoreJs p c = .negInf) : calculateScoreJs p c now = .negInf := by
  unfold calculateScoreJs
  rw [h]
  rfl

theorem scoreJs_of_price_fin (p : Property) (c : SearchCriteria) (now : Int) (r : ℚ)
    (h : calculatePriceScoreJs p c = .fin r) :
    ∃ n : Int, calculateScoreJs p c now = .fin (n : ℚ) ∧ n ≤ 100 := by
  unfold calculateScoreJs
  rw [h]
  exact ⟨⌊min (50 + r + calculateFeatureScore p c + calculateSizeScore p c
    + calculateLocationScore p c + calculateFreshnessScore p now
    + calculateValueScore p) 100 + 1/2⌋, rfl, floorHalf_min_le _⟩

/-- The JS-float scoring path agrees with the total-rational-division scoring
path used by the ranking pipeline whenever the truthy price bounds are not a
degenerate equal pair (the only input region where the source's float
arithmetic leaves the reals). -/
theorem calculatePriceScoreJs_eq_fin (p : Property) (c : SearchCriteria)
    (h : truthyInt c.minPrice = true → truthyInt c.maxPrice = true →
      c.minPrice.getD 0 ≠ c.maxPrice.getD 0) :
    calculatePriceScoreJs p c = .fin (calculatePriceScore p c) := by
  unfold calculatePriceScoreJs calculatePriceScore
  by_cases hb : (truthyInt c.minPrice && truthyInt c.maxPrice) = true
  · rw [if_pos hb, if_pos hb]
    have hmm := (Bool.and_eq_true _ _).mp hb
    have hne : c.minPrice.getD 0 ≠ c.maxPrice.getD 0 := h hmm.1 hmm.2
    have hneQ : ((c.minPrice.getD 0 : Int) : ℚ) ≠ ((c.maxPrice.getD 0 : Int) : ℚ) := by
      exact_mod_cast hne
    have hmd0 : max ((((c.minPrice.getD 0 : Int) : ℚ) + ((c.maxPrice.getD 0 : Int) : ℚ)) / 2
          - ((c.minPrice.getD 0 : Int) : ℚ))
        (((c.maxPrice.getD 0 : Int) : ℚ)
          - (((c.minPrice.getD 0 : Int) : ℚ) + ((c.maxPrice.getD 0 : Int) : ℚ)) / 2) ≠ 0 := by
      have e1 : (((c.minPrice.getD 0 : Int) : ℚ) + ((c.maxPrice.getD 0 : Int) : ℚ)) / 2
          - ((c.minPrice.getD 0 : Int) : ℚ)
          = (((c.maxPrice.getD 0 : Int) : ℚ) - ((c.minPrice.getD 0 : Int) : ℚ)) / 2 := by
        ring
      have e2 : ((c.maxPrice.getD 0 : Int) : ℚ)
          - (((c.minPrice.getD 0 : Int) : ℚ) + ((c.maxPrice.getD 0 : Int) : ℚ)) / 2
          = (((c.maxPrice.getD 0 : Int) : ℚ) - ((c.minPrice.getD 0 : Int) : ℚ)) / 2 := by
        ring
      rw [e1, e2, max_self]
      exact div_ne_zero (sub_ne_zero.mpr (Ne.symm hneQ)) two_ne_zero
    exact priceExpr_eq_fin _ _ hmd0
  · rw [if_neg hb, if_neg hb]
    split
    · exact utilExpr_push _
    · rfl

/-- Full-score form of the agreement: away from the degenerate equal-bounds
corner, calculateScoreJs is the finite integer calculateScore computes. -/
theorem calculateScoreJs_eq_fin (p : Property) (c : SearchCriteria) (now : Int)
    (h : truthyInt c.minPrice = true → truthyInt c.maxPrice = true →
      c.minPrice.getD 0 ≠ c.maxPrice.getD 0) :
    calculateScoreJs p c now = .fin ((calculateScore p c now : Int) : ℚ) := by
  unfold calculateScoreJs
  rw [calculatePriceScoreJs_eq_fin p c h]
  rfl

/-- C1 (amended): for every Property, SearchCriteria and clock value, the
score of PropertyService.calculateScore is never +Infinity and every finite
value it takes is an integer at most 100 (rounded to the nearest integer and
capped above at 100).  There is no lower clamp — far-out-of-window prices give
arbitrarily negative scores — and in the reachable degenerate corner where
both price bounds are truthy and equal, the division by maxDistance = 0 makes
the score NaN (price at the midpoint) or -Infinity rather than a number in
[0, 100]. -/
theorem c1_theorem (p : Property) (c : SearchCriteria) (now : Int) :
    calculateScoreJs p c now ≠ JsNum.posInf ∧
    (∀ q : ℚ, calculateScoreJs p c now = JsNum.fin q → q ≤ 100) ∧
    (truthyInt c.minPrice = true → truthyInt c.maxPrice = true →
      c.minPrice.getD 0 = c.maxPrice.getD 0 →
      calculateScoreJs p c now = JsNum.nan ∨ calculateScoreJs p c now = JsNum.negInf) := by
  have hshape : (∃ n : Int, calculateScoreJs p c now = .fin (n : ℚ) ∧ n ≤ 100) ∨
      calculateScoreJs p c now = .nan ∨ calculateScoreJs p c now = .negInf := by
    rcases calculatePriceScoreJs_cases p c with ⟨r, hr⟩ | h | h
    · exact Or.inl (scoreJs_of_price_fin p c now r hr)
    · exact Or.inr (Or.inl (scoreJs_of_price_nan p c now h))
    · exact Or.inr (Or.inr (scoreJs_of_price_negInf p c now h))
  refine ⟨?_, ?_, ?_⟩
  · rcases hshape with ⟨n, hn, _⟩ | h | h
    · rw [hn]; simp
    · rw [h]; simp
    · rw [h]; simp
  · intro q hq
    rcases hshape with ⟨n, hn, hle⟩ | h | h
    · rw [hn] at hq
      have hq2 : (n : ℚ) = q := by simpa using hq
      rw [← hq2]
      exact_mod_cast hle
    · rw [h] at hq; simp at hq
    · rw [h] at hq; simp at hq
  · intro h1 h2 h3
    rcases calculatePriceScoreJs_corner p c h1 h2 h3 with h | h
    · exact Or.inl (scoreJs_of_price_nan p c now h)
    · exact Or.inr (scoreJs_of_price_negInf p c now h)

/-- C1 (witness): with minPrice = maxPrice = 150000 and the price at the
midpoint, the score is NaN or -Infinity (concretely NaN), not a number. -/
theorem c1_witness :
    calculateScoreJs c1midProp c1eqCrit 0 = JsNum.nan ∨
    calculateScoreJs c1midProp c1eqCrit 0 = JsNum.negInf :=
  (c1_theorem c1midProp c1eqCrit 0).2.2 (by decide) (by decide) (by decide)

/-- C1 (counterexample): a listing priced far outside the requested
[minPrice, maxPrice] window scores the finite value -4845: the score is
neither clamped to [0, 100] nor non-negative. -/
theorem c1_counterexample :
    calculateScoreJs c1prop c1crit 10000000000000 = JsNum.fin (-4845) ∧
    (-4845 : ℚ) < 0 := by
  exact ⟨by decide, by decide⟩

theorem uniqByKey_sublist : ∀ (l : List Property) (seen : List String),
    (uniqByKey l seen).Sublist l := by
  intro l
  induction l with
  | nil => intro seen; simp [uniqByKey]
  | cons p t ih =>
    intro seen
    rw [uniqByKey]
    split
    · exact (ih _).cons _
    · exact (ih _).cons₂ _

theorem uniqByKey_key_not_seen : ∀ (l : List Property) (seen : List String)
    (p : Property), p ∈ uniqByKey l seen → dedupKey p ∉ seen := by
  intro l
  induction l with
  | nil => intro seen p hp; simp [uniqByKey] at hp
  | cons q t ih =>
    intro seen p hp
    rw [uniqByKey] at hp
    split at hp
    · exact ih _ _ hp
    · rename_i hq
      rcases List.mem_cons.mp hp with h | h
      · subst h; exact hq
      · have := ih _ _ h
        intro hc
        exact this (List.mem_cons_of_mem _ hc)

theorem uniqByKey_keys_nodup : ∀ (l : List Property) (seen : List String),
    ((uniqByKey l seen).map dedupKey).Nodup := by
  intro l
  induction l with
  | nil => intro seen; simp [uniqByKey]
  | cons q t ih =>
    intro seen
    rw [uniqByKey]
    split
    · exact ih _
    · simp only [List.map_cons, List.nodup_cons]
      refine ⟨?_, ih _⟩
      intro hmem
      rcases List.mem_map.mp hmem with ⟨p, hp, hkey⟩
      have := uniqByKey_key_not_seen _ _ _ hp
      exact this (by rw [hkey]; exact List.mem_cons_self _ _)

theorem uniqByKey_keeps_first : ∀ (l : List Property) (seen : List String)
    (p q : Property), p ∈ l → dedupKey p ∉ seen →
    l.find? (fun r => dedupKey r == dedupKey p) = some q →
    q ∈ uniqByKey l seen := by
  intro l
  induction l with
  | nil => intro seen p q hp; simp at hp
  | cons a t ih =>
    intro seen p q hp hseen hfind
    rw [List.find?_cons] at hfind
    rw [uniqByKey]
    by_cases hak : dedupKey a = dedupKey p
    · have hbeq : (dedupKey a == dedupKey p) = true := by simp [hak]
      rw [hbeq] at hfind
      cases hfind
      split
      · rename_i hmem
        exact absurd (hak ▸ hmem) hseen
      · exact List.mem_cons_self _ _
    · have hbeq : (dedupKey a == dedupKey p) = false := by simp [hak]
      rw [hbeq] at hfind
      have hpt : p ∈ t := by
        rcases List.mem_cons.mp hp with h | h
        · exact absurd (by rw [h]) hak
        · exact h
      split
      · exact ih _ _ _ hpt hseen hfind
      · refine List.mem_cons_of_mem _ (ih _ _ _ hpt ?_ hfind)
        intro hc
        rcases List.mem_cons.mp hc with h | h
        · exact hak h.symm
        · exact hseen h

/-- C4 (amended): deduplicateProperties keeps exactly one record per identity
key — the case-folded (but not whitespace-trimmed) address concatenated with
"-" and the exact price — retaining the first-encountered record in input
order: the output is a sublist of the input with pairwise distinct keys that
contains the first record carrying any given input key; in particular two
records whose addresses differ only in letter case and that have equal price
collapse to the first one. -/
theorem c4_theorem (l : List Property) (p1 p2 : Property) :
    (deduplicateProperties l).Sublist l ∧
    ((deduplicateProperties l).map dedupKey).Nodup ∧
    (∀ p ∈ l, ∀ q, l.find? (fun r => dedupKey r == dedupKey p) = some q →
      q ∈ deduplicateProperties l) ∧
    (jsToLower p1.address = jsToLower p2.address → p1.price = p2.price →
      deduplicateProperties [p1, p2] = [p1]) := by
  refine ⟨uniqByKey_sublist l [], uniqByKey_keys_nodup l [], ?_, ?_⟩
  · intro p hp q hq
    exact uniqByKey_keeps_first l [] p q hp (by simp) hq
  · intro haddr hprice
    have hk : dedupKey p2 = dedupKey p1 := by
      unfold dedupKey
      rw [haddr, hprice]
    simp [deduplicateProperties, uniqByKey, hk]

/-- C4 (witness): two concrete records at addresses "100 MAIN St" and
"100 main st" with equal price collapse to the first. -/
theorem c4_witness : deduplicateProperties [c4caseA, c4caseB] = [c4caseA] :=
  (c4_theorem [] c4caseA c4caseB).2.2.2 (by decide) (by decide)

/-- C4 (counterexample): two records whose addresses differ only in leading
whitespace and that have equal price are NOT collapsed — the dedup key
lowercases but never trims, so the claimed whitespace-insensitivity fails. -/
theorem c4_counterexample :
    c4wsB.address = " " ++ c4wsA.address ∧ c4wsA.price = c4wsB.price ∧
    deduplicateProperties [c4wsA, c4wsB] = [c4wsA, c4wsB] := by
  refine ⟨by decide, by decide, by decide⟩

theorem diversifyLoop_length_le (criteria : SearchCriteria) (pr : List PriceRange)
    (maxR : ℕ) : ∀ (fuel : ℕ) (d r : List Property), d.length ≤ maxR →
    (diversifyLoop criteria pr maxR fuel d r).length ≤ maxR := by
  intro fuel
  induction fuel with
  | zero => intro d r hd; exact hd
  | succ f ih =>
    intro d r hd
    rw [diversifyLoop]
    split
    · rename_i hcond
      rcases hp : pickNext criteria pr d r with _ | np
      · simp only [hp]
        exact hd
      · simp only [hp]
        apply ih
        have : d.length < maxR := hcond.1
        simp only [List.length_append, List.length_singleton]
        omega
    · exact hd

/-- C5: for every ranked list, every criteria and every maxResults N ≥ 0, the
output of diversifyResults has length at most N, and when the input length is
at most N the output is exactly the input list, unchanged and in order. -/
theorem c5_theorem (properties : List Property) (criteria : SearchCriteria)
    (maxResults : ℕ) :
    (diversifyResults properties criteria maxResults).length ≤ maxResults ∧
    (properties.length ≤ maxResults →
      diversifyResults properties criteria maxResults = properties) := by
  constructor
  · unfold diversifyResults
    split
    · rename_i h; exact h
    · exact diversifyLoop_length_le _ _ _ _ _ _ (by simp)
  · intro h
    unfold diversifyResults
    split
    · rfl
    · rename_i h2; exact absurd h h2

/-- C5 (witness): a single listing with cap 2 is returned unchanged and within
the cap. -/
theorem c5_witness : diversifyResults [baseProp] baseCriteria 2 = [baseProp] :=
  (c5_theorem [baseProp] baseCriteria 2).2 (by decide)

theorem cacheGet_set : ∀ (m : Cache) (k : String) (e : CacheEntry),
    cacheGet (cacheSet m k e) k = some e := by
  intro m
  induction m with
  | nil => intro k e; simp [cacheSet, cacheGet, List.find?]
  | cons kv t ih =>
    intro k e
    rw [cacheSet]
    by_cases h : kv.1 = k
    · rw [if_pos h]
      simp [cacheGet, List.find?, h]
    · rw [if_neg h]
      unfold cacheGet
      rw [List.find?_cons]
      have hbeq : ((kv.1, kv.2).1 == k) = false := by simpa using h
      rw [hbeq]
      exact ih k e

/-- C3 (amended): immediately after addToCache(key, list) at time t0, a
getFromCache(key) at time t returns the stored list when t - t0 ≤ TTL and
returns a miss (none, indistinguishable from an absent entry) when
t - t0 > TTL, even without explicit eviction.  The boundary t - t0 = TTL is a
hit: the source treats an entry as expired only when strictly older than the
TTL. -/
theorem c3_theorem (cache : Cache) (key : String) (data : List Property)
    (criteria : SearchCriteria) (t0 t : Int) :
    (t - t0 ≤ CACHE_TTL →
      (getFromCache (addToCache cache key data criteria t0) key t).1 = some data) ∧
    (t - t0 > CACHE_TTL →
      (getFromCache (addToCache cache key data criteria t0) key t).1 = none) := by
  have hget : cacheGet (addToCache cache key data criteria t0) key =
      some ⟨data, t0, jsonStringifyCriteria criteria⟩ := by
    unfold addToCache
    exact cacheGet_set _ _ _
  constructor
  · intro h
    have hcond : ¬ (t - t0 > CACHE_TTL) := by omega
    unfold getFromCache
    rw [hget]
    simp [hcond]
  · intro h
    unfold getFromCache
    rw [hget]
    simp [h]

/-- C3 (witness): a write at time 0 read back at time 1 returns the stored
list; TTL has not elapsed. -/
theorem c3_witness :
    (getFromCache (addToCache [] "k" [baseProp] baseCriteria 0) "k" 1).1 =
      some [baseProp] :=
  (c3_theorem [] "k" [baseProp] baseCriteria 0 1).1 (by decide)

/-- C3 (counterexample): at exactly t - t0 = TTL (600000 ms) the claim says
miss, but the entry is still returned — expiry uses a strict comparison. -/
theorem c3_counterexample :
    CACHE_TTL ≤ (600000 : Int) - 0 ∧
    (getFromCache (addToCache [] "k" [baseProp] baseCriteria 0) "k" 600000).1 =
      some [baseProp] := by
  exact ⟨by decide, by decide⟩

/-- Criteria whose features array is not already sorted. -/
def c9crit : SearchCriteria := { baseCriteria with features := ["pool", "gym"] }

/-- C9: refuted as a code bug — the core does not consume SearchCriteria
read-only: generateCacheKey calls criteria.features.sort(), which sorts the
caller's array in place, so after the cache-key derivation (and hence after
any searchProperties call) the features array of the criteria value is
reordered.  At features = ["pool", "gym"] the criteria is left with
["gym", "pool"], different from the original. -/
theorem c9_bug :
    (generateCacheKey c9crit).2.features = ["gym", "pool"] ∧
    (generateCacheKey c9crit).2 ≠ c9crit := by
  exact ⟨by decide, by decide⟩

/-- C6 (amended): a provider record with no explicit, confidently-mapped unit
type and no apartment indicator in its address is inferred as "house" for
every requested specific property type (so strict filters exclude it); when
the requested type is "any", however, the inference returns "any", not
"house". -/
theorem c6_theorem (item : ScrapedItem) (req : PropertyType)
    (h1 : noConfidentTypeString item = true)
    (h2 : hasAptAddressIndicator item = false) :
    detectPropertyTypeFromScrapedData item req =
      (if req = .any then PropertyType.any else PropertyType.house) := by
  unfold noConfidentTypeString at h1
  unfold hasAptAddressIndicator at h2
  simp only [Bool.or_eq_false_iff] at h2
  unfold detectPropertyTypeFromScrapedData
  rcases hf : firstTruthyStr [item.home_type, item.propertyType, item.type] with _ | raw
  · simp only [h2.1.1, h2.1.2, h2.2, Bool.or_self, Bool.false_or, if_false]
    by_cases hreq : req = .any
    · simp [hreq]
    · simp [hreq]
  · rw [hf] at h1
    have h1b : matchesTypeIndicator raw = false := by
      have h1c : (!matchesTypeIndicator raw) = true := h1
      simpa using h1c
    unfold matchesTypeIndicator at h1b
    simp only [Bool.or_eq_false_iff] at h1b
    obtain ⟨⟨⟨⟨⟨⟨⟨⟨⟨⟨⟨⟨⟨⟨ha1, ha2⟩, ha3⟩, ha4⟩, ha5⟩, ha6⟩, ha7⟩, ha8⟩,
      ha9⟩, ha10⟩, ha11⟩, ha12⟩, ha13⟩, ha14⟩, ha15⟩ := h1b
    simp only [ha1, ha2, ha3, ha4, ha5, ha6, ha7, ha8, ha9, ha10, ha11, ha12,
      ha13, ha14, ha15, Bool.or_self, Bool.false_or, if_false,
      h2.1.1, h2.1.2, h2.2]
    by_cases hreq : req = .any
    · simp [hreq]
    · simp [hreq]

/-- C6 (witness): an unrecognized "Mobile Home" type string with a plain
address defaults to house for an apartment request. -/
theorem c6_witness :
    detectPropertyTypeFromScrapedData c6mobileItem .apartment = .house := by
  have h := c6_theorem c6mobileItem .apartment (by decide) (by decide)
  simpa using h

/-- C6 (counterexample): the same ambiguous kind of record does NOT default to
house when the requested property type is "any" — the source returns the
requested type itself, refuting "returns house for every requested property
type". -/
theorem c6_counterexample :
    detectPropertyTypeFromScrapedData c6item .any = .any ∧
    detectPropertyTypeFromScrapedData c6item .any ≠ .house := by
  exact ⟨by decide, by decide⟩

instance : IsTotal Property rankLE :=
  ⟨by
    intro a b
    unfold rankLE
    rcases lt_trichotomy (scoreVal a) (scoreVal b) with h | h | h
    · right; left; exact h
    · rcases le_total a.price b.price with hp | hp
      · left; right; exact ⟨h, hp⟩
      · right; right; exact ⟨h.symm, hp⟩
    · left; left; exact h⟩

instance : IsTrans Property rankLE :=
  ⟨by
    intro a b c hab hbc
    unfold rankLE at hab hbc ⊢
    rcases hab with h1 | ⟨h1, h1p⟩ <;> rcases hbc with h2 | ⟨h2, h2p⟩
    · left; omega
    · left; omega
    · left; omega
    · right; exact ⟨h1.trans h2, le_trans h1p h2p⟩⟩

theorem sorted_perm_eq_of_mem_antisymm {α : Type} {r : α → α → Prop} :
    ∀ {l₁ l₂ : List α}, l₁.Perm l₂ → l₁.Sorted r → l₂.Sorted r →
    (∀ a ∈ l₁, ∀ b ∈ l₁, r a b → r b a → a = b) → l₁ = l₂ := by
  intro l₁
  induction l₁ with
  | nil =>
    intro l₂ hp _ _ _
    exact (hp.symm.eq_nil).symm
  | cons a t₁ ih =>
    intro l₂ hp hs₁ hs₂ hanti
    cases l₂ with
    | nil => exact absurd hp.eq_nil (by simp)
    | cons b t₂ =>
      have ha2 : a ∈ b :: t₂ := hp.subset (List.mem_cons_self _ _)
      have hb1 : b ∈ a :: t₁ := hp.symm.subset (List.mem_cons_self _ _)
      have hab : a = b := by
        rcases List.mem_cons.mp ha2 with h | h
        · exact h
        · rcases List.mem_cons.mp hb1 with h2 | h2
          · exact h2.symm
          · have hrab : r a b := List.rel_of_sorted_cons hs₁ b h2
            have hrba : r b a := List.rel_of_sorted_cons hs₂ a h
            exact hanti a (List.mem_cons_self _ _) b (List.mem_cons_of_mem _ h2) hrab hrba
      subst hab
      have hpt : t₁.Perm t₂ := hp.cons_inv
      have ht : t₁ = t₂ := by
        refine ih hpt hs₁.of_cons hs₂.of_cons ?_
        intro x hx y hy hxy hyx
        exact hanti x (List.mem_cons_of_mem _ hx) y (List.mem_cons_of_mem _ hy) hxy hyx
      rw [ht]

/-- C8 (amended): rankProperties returns the scored properties sorted by score
descending with ties broken by price ascending (the rankLE order); and for any
two input lists that are permutations of each other, the outputs are identical
provided no two distinct input records share both their computed score and
their price — with full (score, price) ties, the stable sort preserves arrival
order, which then leaks into the output. -/
theorem c8_theorem (criteria : SearchCriteria) (now : Int) (l₁ l₂ : List Property)
    (hperm : l₁.Perm l₂) :
    (rankProperties l₁ criteria now).Sorted rankLE ∧
    ((∀ a ∈ l₁, ∀ b ∈ l₁,
        calculateScore a criteria now = calculateScore b criteria now →
        a.price = b.price → a = b) →
      rankProperties l₁ criteria now = rankProperties l₂ criteria now) := by
  constructor
  · exact List.sorted_insertionSort rankLE _
  · intro hinj
    unfold rankProperties
    apply sorted_perm_eq_of_mem_antisymm
    · exact (List.perm_insertionSort rankLE _).trans
        ((hperm.map (applyScore criteria now)).trans
          (List.perm_insertionSort rankLE _).symm)
    · exact List.sorted_insertionSort rankLE _
    · exact List.sorted_insertionSort rankLE _
    · intro x hx y hy hxy hyx
      have hx2 : x ∈ l₁.map (applyScore criteria now) :=
        (List.perm_insertionSort rankLE _).subset hx
      have hy2 : y ∈ l₁.map (applyScore criteria now) :=
        (List.perm_insertionSort rankLE _).subset hy
      rcases List.mem_map.mp hx2 with ⟨p, hpmem, hpx⟩
      rcases List.mem_map.mp hy2 with ⟨q, hqmem, hqy⟩
      have hsx : scoreVal x = calculateScore p criteria now := by
        rw [← hpx]; rfl
      have hsy : scoreVal y = calculateScore q criteria now := by
        rw [← hqy]; rfl
      have hpxprice : x.price = p.price := by rw [← hpx]; rfl
      have hqyprice : y.price = q.price := by rw [← hqy]; rfl
      unfold rankLE at hxy hyx
      have hscore : scoreVal x = scoreVal y := by omega
      have hprice : x.price = y.price := by
        rcases hxy with h | ⟨_, h⟩
        · omega
        · rcases hyx with h2 | ⟨_, h2⟩
          · omega
          · exact le_antisymm h h2
      have hpq : p = q := by
        apply hinj p hpmem q hqmem
        · rw [← hsx, ← hsy, hscore]
        · rw [← hpxprice, ← hqyprice, hprice]
      rw [← hpx, ← hqy, hpq]

/-- C8 (witness): with distinct (score, price) keys, the two arrival orders of
the same two listings rank identically. -/
theorem c8_witness :
    rankProperties [c8q1, c8q2] baseCriteria 0 =
      rankProperties [c8q2, c8q1] baseCriteria 0 :=
  (c8_theorem baseCriteria 0 [c8q1, c8q2] [c8q2, c8q1]
    (List.Perm.swap _ _ _)).2 (by decide)

/-- C8 (counterexample): two records identical except for their address tie on
both score and price; the two arrival orders then produce different ranked
outputs, refuting arrival-order independence as stated. -/
theorem c8_counterexample :
    ([c8r1, c8r2] : List Property).Perm [c8r2, c8r1] ∧
    rankProperties [c8r1, c8r2] baseCriteria 0 ≠
      rankProperties [c8r2, c8r1] baseCriteria 0 := by
  exact ⟨List.Perm.swap _ _ _, by decide⟩

/-- C7 (amended): every annotated record of the pipeline output carries a
comparable-market block computed against same-unit-type, bedroom-within-1
peers drawn from the diversified subset handed to the annotator (NOT the full
scored candidate set); the block is omitted (none) exactly when fewer than 2
such comparables exist in that subset, so no division by zero occurs, and
otherwise reports exactly that comparable count. -/
theorem c7_theorem (props : List Property) (crit : SearchCriteria) (now : Int)
    (ap : AnnotatedProperty) (h : ap ∈ aggregateAndProcess props crit now) :
    ((comparablesIn (diversifiedCandidates props crit now) ap.property).length < 2 →
      ap.marketInsights = none) ∧
    (2 ≤ (comparablesIn (diversifiedCandidates props crit now) ap.property).length →
      ∃ mi, ap.marketInsights = some mi ∧
        mi.totalComparables =
          (comparablesIn (diversifiedCandidates props crit now) ap.property).length) := by
  have hagg : aggregateAndProcess props crit now =
      addSmartRecommendations (diversifiedCandidates props crit now) crit now := rfl
  rw [hagg] at h
  unfold addSmartRecommendations at h
  rcases List.mem_map.mp h with ⟨p, hp, hap⟩
  have h1 : ap.property = p := by rw [← hap]
  have h2 : ap.marketInsights =
      generateMarketInsights p (diversifiedCandidates props crit now) := by
    rw [← hap]
  rw [h1, h2]
  constructor
  · intro hlen
    unfold generateMarketInsights
    rw [if_pos hlen]
  · intro hlen
    unfold generateMarketInsights
    rw [if_neg (by omega)]
    exact ⟨_, rfl, rfl⟩

/-- C7 (witness): a single-listing pipeline has one candidate, hence fewer
than 2 comparables, and its annotated record carries no market block. -/
theorem c7_witness : c7ap.marketInsights = none :=
  (c7_theorem [baseProp] baseCriteria 0 c7ap (by decide)).1 (by decide)

/-- C7 (counterexample): with 16 mutually comparable listings the diversifier
keeps 15, and the annotator computes comparables against those 15 only — the
market block of the output differs from the block computed against the full
scored candidate set, refuting "drawn from the full scored set". -/
theorem c7_counterexample :
    ¬ ∀ ap ∈ aggregateAndProcess props16 baseCriteria 0,
        ap.marketInsights =
          generateMarketInsights ap.property (rankedCandidates props16 baseCriteria 0) := by
  decide

theorem foldl_merge_skip : ∀ (l : List (Except String (List Property)))
    (acc : List Property),
    (∀ r ∈ l, r = .ok [] ∨ ∃ e, r = .error e) →
    l.foldl (fun acc r => match r with | .ok v => acc ++ v | .error _ => acc) acc
      = acc := by
  intro l
  induction l with
  | nil => intro acc _; rfl
  | cons r t ih =>
    intro acc hall
    rcases hall r (List.mem_cons_self _ _) with h | ⟨e, h⟩ <;> subst h
    · simpa using ih acc (fun x hx => hall x (List.mem_cons_of_mem _ hx))
    · exact ih acc fun x hx => hall x (List.mem_cons_of_mem _ hx)

theorem mergeOutcomes_empty (l : List (Except String (List Property)))
    (h : ∀ r ∈ l, r = .ok [] ∨ ∃ e, r = .error e) : mergeOutcomes l = [] :=
  foldl_merge_skip l [] h

theorem mockLoop_length_of_any (criteria : SearchCriteria) (source : String)
    (domains : List String) (now : Int) (rand : ℕ → ℚ)
    (h : criteria.propertyType = .any) :
    ∀ (n i k : ℕ), (mockLoop criteria source domains now rand n i k).length = n := by
  intro n
  induction n with
  | zero => intro i k; rfl
  | succ n ih =>
    intro i k
    rw [mockLoop]
    rcases hmi : mockIteration criteria source domains now rand i k with ⟨op, k2⟩
    rcases op with _ | p
    · exfalso
      unfold mockIteration at hmi
      rw [h] at hmi
      simp at hmi
    · simp [ih]

/-- C2 (amended): with no mock-data override, at least one validly configured
provider, a cache miss, and every configured provider call settling with an
empty list or a failure: in strict API mode searchProperties raises the
no-results error (and thus never returns synthetic data); with strict mode
off it returns exactly the synthetic list produced by the mock generator —
which is non-empty whenever the requested property type is "any", but, as the
counterexample shows, can be empty for a specific requested type. -/
theorem c2_theorem (cfg : ApiConfig) (criteria : SearchCriteria) (cache : Cache)
    (apifyOutcome zillowOutcome : Except String (List Property))
    (rand : ℕ → ℚ) (k : ℕ) (now : Int)
    (hmock : cfg.useMockData = false)
    (hvalid : hasAnyValidApiConfig cfg = true)
    (hmiss : (getFromCache cache (generateCacheKey criteria).1 now).1 = none)
    (ha : cfg.hasValidApify = true → apifyOutcome = .ok [] ∨ ∃ e, apifyOutcome = .error e)
    (hz : cfg.hasValidZillow = true → zillowOutcome = .ok [] ∨ ∃ e, zillowOutcome = .error e) :
    (cfg.strictApiMode = true →
      (searchProperties cfg criteria cache apifyOutcome zillowOutcome rand k now).1 =
        .error noResultsMsg) ∧
    (cfg.strictApiMode = false →
      (searchProperties cfg criteria cache apifyOutcome zillowOutcome rand k now).1 =
        .ok (generateMockProperties (generateCacheKey criteria).2 "MockAPI" rand k now)) ∧
    (criteria.propertyType = .any →
      generateMockProperties (generateCacheKey criteria).2 "MockAPI" rand k now ≠ []) := by
  have hsettled : mergeOutcomes (settledOutcomes cfg apifyOutcome zillowOutcome) = [] := by
    apply mergeOutcomes_empty
    intro r hr
    unfold settledOutcomes at hr
    rcases List.mem_append.mp hr with h | h
    · by_cases hA : cfg.hasValidApify
      · rw [if_pos hA] at h
        rcases List.mem_singleton.mp h with rfl
        exact ha hA
      · rw [if_neg hA] at h
        simp at h
    · by_cases hZ : cfg.hasValidZillow
      · rw [if_pos hZ] at h
        rcases List.mem_singleton.mp h with rfl
        exact hz hZ
      · rw [if_neg hZ] at h
        simp at h
  refine ⟨?_, ?_, ?_⟩
  · intro hstrict
    unfold searchProperties
    simp [hmiss, hmock, hvalid, hstrict, hsettled]
  · intro hstrict
    unfold searchProperties
    simp [hmiss, hmock, hvalid, hstrict, hsettled]
  · intro hany
    have hpt : (generateCacheKey criteria).2.propertyType = .any := by
      rw [show (generateCacheKey criteria).2.propertyType = criteria.propertyType from rfl]
      exact hany
    intro hnil
    have h0 : (generateMockProperties (generateCacheKey criteria).2 "MockAPI" rand k now).length
        = jsFloorNat (rand k * 15) + 5 := by
      unfold generateMockProperties
      exact mockLoop_length_of_any _ _ _ _ _ hpt _ _ _
    rw [hnil] at h0
    simp at h0

/-- C2 (witness): strict mode, one configured provider resolving with an
empty list, empty cache — searchProperties raises the no-results error. -/
theorem c2_witness :
    (searchProperties c2cfgS c2aptCrit [] (.error "boom") (.ok []) zeroRand 0 0).1 =
      .error noResultsMsg :=
  (c2_theorem c2cfgS c2aptCrit [] (.error "boom") (.ok []) zeroRand 0 0 rfl rfl
    (by decide) (fun h => absurd h (by decide)) (fun _ => Or.inl rfl)).1 rfl

/-- C2 (counterexample): under the same all-providers-empty conditions with
strict mode off, a specific requested type (apartment) and the all-zeros
random stream make every generated mock item take the noise branch
("Townhouses", detected as house) and be filtered out: searchProperties
returns the empty synthetic list, refuting "returns a non-empty synthetic
list". -/
theorem c2_counterexample :
    (searchProperties c2cfgNS c2aptCrit [] (.error "boom") (.ok []) zeroRand 0 0).1 =
      .ok ([] : List Property) := by
  decide

end RealEstate
